import Mathlib

set_option maxRecDepth 40000

/-!
Shallow embedding of the AstroShell dome controller
(src/domecontrol_JK3.ino, "STABLE NETWORK VERSION rev9, v3.3").

Embedded state machines:
* the Timer2 ISR `ISR(TIMER2_COMPA_vect)` (emergency stop, stop-reason
  management, limit-switch stops, timeout countdown, soft-start PWM ramp,
  debounced buttons, and the runtime tick recorder),
* the motor commands of the web handler `handleWebClient` (opcodes 1..5),
* the supervisory monitor `checkRemoteConnectionAndAutoClose`,
* the counter store `saveCountersToEEPROM`.

Machine integers: the Arduino counters are byte/word/unsigned int; all
arithmetic performed here stays far below the wrap points, and millis()
timestamps are modelled as a monotone Nat clock, so the unsigned
difference millis() - t0 is Nat subtraction.  Pin reads are booleans
holding the raw digitalRead level: for limit switches true means the
endpoint is reached (active HIGH); buttons are active LOW, so a pressed
button reads false.
-/

namespace DomeControl

/-- Motor direction command that physically CLOSES the shutter (source macro OPEN). -/
def OPEN : Nat := 1

/-- Motor direction command that physically OPENS the shutter (source macro CLOSE). -/
def CLOSE : Nat := 2

/-- Soft-start ramp step per tick (source macro SMOOTH). -/
def SMOOTH : Nat := 30

/-- Shutter 1 timeout toward OPEN, in ISR ticks (source macro MAX_MOT1_OPEN). -/
def MAX_MOT1_OPEN : Nat := 6527

/-- Shutter 1 timeout toward CLOSE (source macro MAX_MOT1_CLOSE). -/
def MAX_MOT1_CLOSE : Nat := 6527

/-- Shutter 2 timeout toward OPEN (source macro MAX_MOT2_OPEN). -/
def MAX_MOT2_OPEN : Nat := 6527

/-- Shutter 2 timeout toward CLOSE (source macro MAX_MOT2_CLOSE). -/
def MAX_MOT2_CLOSE : Nat := 6527

/-- One motor channel's shared state: motXdir, motXspeed, motXtimer,
stopXreason, mXAutoClosedByIP. -/
structure Motor where
  dir : Nat
  speed : Nat
  timer : Nat
  stopReason : Nat
  autoClosedByIP : Bool
deriving Repr, DecidableEq

/-- Per-motor runtime tick recorder state: mX_tick_counter,
mX_full_run_active, mX_was_closing, mX_prev_dir, mX_last_ticks_closing,
mX_last_ticks_opening, mX_last_direction, mX_data_ready,
mX_interrupt_ticks, mX_interrupt_direction, mX_interrupt_ready. -/
structure Recorder where
  tickCounter : Nat
  fullRunActive : Bool
  wasClosing : Bool
  prevDir : Nat
  lastTicksClosing : Nat
  lastTicksOpening : Nat
  lastDirection : Nat
  dataReady : Bool
  interruptTicks : Nat
  interruptDirection : Nat
  interruptReady : Bool
deriving Repr, DecidableEq

/-- The controller's global mutable state (the volatile globals shared by the
ISR, the web handler and the supervisory loop, plus the EEPROM image). -/
structure Sys where
  m1 : Motor
  m2 : Motor
  sw1upFlag : Bool
  sw1downFlag : Bool
  sw2upFlag : Bool
  sw2downFlag : Bool
  swstopFlag : Bool
  cnt : Nat
  r1 : Recorder
  r2 : Recorder
  networkMonitoringEnabled : Bool
  ethInit : Bool
  connectFailCount : Nat
  lastConnectAttempt : Nat
  firstFailTimestamp : Nat
  totalIpFailures : Nat
  totalAutoCloses : Nat
  eepromDirty : Bool
  cableRemovalTriggered : Bool
  wasLinkDown : Bool
  dayCounter : Nat
  eeIpFails : Nat
  eeAutoCloses : Nat
  eeDay : Nat
  lastSave : Nat
deriving Repr, DecidableEq

/-- Raw digitalRead levels sampled for one ISR tick.  Limit switches are
active HIGH (true = endpoint reached); buttons and SWSTOP are active LOW
(false = pressed). -/
structure Pins where
  swstop : Bool
  lim1open : Bool
  lim1closed : Bool
  lim2open : Bool
  lim2closed : Bool
  sw1up : Bool
  sw1down : Bool
  sw2up : Bool
  sw2down : Bool
deriving Repr, DecidableEq

/-- if (cnt < 100) cnt++; -/
def isrDebounceTick (s : Sys) : Sys :=
  if s.cnt < 100 then { s with cnt := s.cnt + 1 } else s

/-- Emergency STOP section of the ISR: on a LOW read with no pending flag,
stop both motors (if any is running) with reason 1 and clear IP ownership;
the flag clears as soon as the pin reads HIGH. -/
def isrEmergencyStop (p : Pins) (s : Sys) : Sys :=
  if p.swstop = false then
    if s.swstopFlag = false then
      let s1 :=
        if s.m1.dir ≠ 0 ∨ s.m2.dir ≠ 0 then
          { s with
            m1 := { s.m1 with dir := 0, stopReason := 1, autoClosedByIP := false },
            m2 := { s.m2 with dir := 0, stopReason := 1, autoClosedByIP := false } }
        else s
      { s1 with swstopFlag := true }
    else s
  else { s with swstopFlag := false }

/-- Stop-reason management: clear the reason to 0 when the motor is off at a
limit switch, unless an IP-fail reason (3, still owned) or VCC reason (4)
is latched. -/
def isrStopReasonClear (p : Pins) (s : Sys) : Sys :=
  let s1 :=
    if s.m1.dir = 0 ∧ (p.lim1open = true ∨ p.lim1closed = true) then
      if ¬((s.m1.stopReason = 3 ∧ s.m1.autoClosedByIP = true) ∨ s.m1.stopReason = 4) then
        { s with m1 := { s.m1 with stopReason := 0 } }
      else s
    else s
  if s1.m2.dir = 0 ∧ (p.lim2open = true ∨ p.lim2closed = true) then
    if ¬((s1.m2.stopReason = 3 ∧ s1.m2.autoClosedByIP = true) ∨ s1.m2.stopReason = 4) then
      { s1 with m2 := { s1.m2 with stopReason := 0 } }
    else s1
  else s1

/-- Limit detection block: motor 1 driving toward OPEN stops when lim1open
reads HIGH (the stop reason is cleared unless a failsafe reason is
latched). -/
def limStop1open (p : Pins) (s : Sys) : Sys :=
  if p.lim1open = true ∧ s.m1.dir = OPEN then
    let rnew :=
      if ¬((s.m1.stopReason = 3 ∧ s.m1.autoClosedByIP = true) ∨ s.m1.stopReason = 4)
      then 0 else s.m1.stopReason
    { s with m1 := { s.m1 with dir := 0, stopReason := rnew, autoClosedByIP := false } }
  else s

/-- Limit detection block: motor 1 driving toward CLOSE stops at lim1closed. -/
def limStop1closed (p : Pins) (s : Sys) : Sys :=
  if p.lim1closed = true ∧ s.m1.dir = CLOSE then
    { s with m1 := { s.m1 with dir := 0, stopReason := 0, autoClosedByIP := false } }
  else s

/-- Limit detection block: motor 2 driving toward OPEN stops at lim2open. -/
def limStop2open (p : Pins) (s : Sys) : Sys :=
  if p.lim2open = true ∧ s.m2.dir = OPEN then
    let rnew :=
      if ¬((s.m2.stopReason = 3 ∧ s.m2.autoClosedByIP = true) ∨ s.m2.stopReason = 4)
      then 0 else s.m2.stopReason
    { s with m2 := { s.m2 with dir := 0, stopReason := rnew, autoClosedByIP := false } }
  else s

/-- Limit detection block: motor 2 driving toward CLOSE stops at lim2closed. -/
def limStop2closed (p : Pins) (s : Sys) : Sys :=
  if p.lim2closed = true ∧ s.m2.dir = CLOSE then
    { s with m2 := { s.m2 with dir := 0, stopReason := 0, autoClosedByIP := false } }
  else s

/-- Limit switch detection: stop a motor the moment the limit it is driving
toward reads HIGH, in source order. -/
def isrLimitStops (p : Pins) (s : Sys) : Sys :=
  limStop2closed p (limStop2open p (limStop1closed p (limStop1open p s)))

/-- Motor timeout countdown: while a motor runs, decrement its timer; at
zero, stop it and latch reason 5 unless a failsafe reason is latched. -/
def isrTimeout (s : Sys) : Sys :=
  let s1 :=
    if s.m1.dir ≠ 0 then
      if s.m1.timer ≠ 0 then { s with m1 := { s.m1 with timer := s.m1.timer - 1 } }
      else
        if ¬((s.m1.stopReason = 3 ∧ s.m1.autoClosedByIP = true) ∨ s.m1.stopReason = 4) then
          { s with m1 := { s.m1 with dir := 0, stopReason := 5, autoClosedByIP := false } }
        else { s with m1 := { s.m1 with dir := 0 } }
    else s
  if s1.m2.dir ≠ 0 then
    if s1.m2.timer ≠ 0 then { s1 with m2 := { s1.m2 with timer := s1.m2.timer - 1 } }
    else
      if ¬((s1.m2.stopReason = 3 ∧ s1.m2.autoClosedByIP = true) ∨ s1.m2.stopReason = 4) then
        { s1 with m2 := { s1.m2 with dir := 0, stopReason := 5, autoClosedByIP := false } }
      else { s1 with m2 := { s1.m2 with dir := 0 } }
  else s1

/-- Soft-start PWM ramp: speed resets to 0 when a motor is off, otherwise it
rises by SMOOTH per tick and saturates at 255. -/
def isrPwm (s : Sys) : Sys :=
  let s1 :=
    if s.m1.dir = 0 then { s with m1 := { s.m1 with speed := 0 } }
    else
      { s with m1 := { s.m1 with speed := if s.m1.speed < 255 - SMOOTH then s.m1.speed + SMOOTH else 255 } }
  if s1.m2.dir = 0 then { s1 with m2 := { s1.m2 with speed := 0 } }
  else
    { s1 with m2 := { s1.m2 with speed := if s1.m2.speed < 255 - SMOOTH then s1.m2.speed + SMOOTH else 255 } }

/-- SW1up button block: acts when the pin reads LOW, cnt > 6 and no pending
flag; the action sets the flag, zeroes cnt and toggles motor 1 (stop if
running, else start toward OPEN if lim1open reads LOW). -/
def buttonSW1up (p : Pins) (s : Sys) : Sys :=
  if p.sw1up = false ∧ s.cnt > 6 ∧ s.sw1upFlag = false then
    let t : Sys := { s with sw1upFlag := true, cnt := 0 }
    if t.m1.dir ≠ 0 then
      { t with m1 := { t.m1 with dir := 0, stopReason := 1, autoClosedByIP := false } }
    else if p.lim1open = false then
      { t with m1 := { t.m1 with dir := OPEN, timer := MAX_MOT1_OPEN, stopReason := 0, autoClosedByIP := false } }
    else t
  else s

/-- SW1down button block (motor 1 toward CLOSE, guarded by lim1closed). -/
def buttonSW1down (p : Pins) (s : Sys) : Sys :=
  if p.sw1down = false ∧ s.cnt > 6 ∧ s.sw1downFlag = false then
    let t : Sys := { s with sw1downFlag := true, cnt := 0 }
    if t.m1.dir ≠ 0 then
      { t with m1 := { t.m1 with dir := 0, stopReason := 1, autoClosedByIP := false } }
    else if p.lim1closed = false then
      { t with m1 := { t.m1 with dir := CLOSE, timer := MAX_MOT1_CLOSE, stopReason := 0, autoClosedByIP := false } }
    else t
  else s

/-- SW2up button block (motor 2 toward OPEN, guarded by lim2open). -/
def buttonSW2up (p : Pins) (s : Sys) : Sys :=
  if p.sw2up = false ∧ s.cnt > 6 ∧ s.sw2upFlag = false then
    let t : Sys := { s with sw2upFlag := true, cnt := 0 }
    if t.m2.dir ≠ 0 then
      { t with m2 := { t.m2 with dir := 0, stopReason := 1, autoClosedByIP := false } }
    else if p.lim2open = false then
      { t with m2 := { t.m2 with dir := OPEN, timer := MAX_MOT2_OPEN, stopReason := 0, autoClosedByIP := false } }
    else t
  else s

/-- SW2down button block (motor 2 toward CLOSE, guarded by lim2closed). -/
def buttonSW2down (p : Pins) (s : Sys) : Sys :=
  if p.sw2down = false ∧ s.cnt > 6 ∧ s.sw2downFlag = false then
    let t : Sys := { s with sw2downFlag := true, cnt := 0 }
    if t.m2.dir ≠ 0 then
      { t with m2 := { t.m2 with dir := 0, stopReason := 1, autoClosedByIP := false } }
    else if p.lim2closed = false then
      { t with m2 := { t.m2 with dir := CLOSE, timer := MAX_MOT2_CLOSE, stopReason := 0, autoClosedByIP := false } }
    else t
  else s

/-- Physical button handling: the four debounced button blocks in source
order (an action zeroes cnt, so at most one block fires per tick). -/
def isrButtons (p : Pins) (s : Sys) : Sys :=
  buttonSW2down p (buttonSW2up p (buttonSW1down p (buttonSW1up p s)))

/-- Button release detection: a pending press flag clears the tick its input
reads HIGH again. -/
def isrButtonRelease (p : Pins) (s : Sys) : Sys :=
  let s1 := if p.sw1up = true then { s with sw1upFlag := false } else s
  let s2 := if p.sw1down = true then { s1 with sw1downFlag := false } else s1
  let s3 := if p.sw2up = true then { s2 with sw2upFlag := false } else s2
  if p.sw2down = true then { s3 with sw2downFlag := false } else s3

/-- Recorder 1 start detection: on a stopped-to-running transition the run
becomes active only when a limit switch is asserted; starting mid-travel
forces the run inactive. -/
def recStart1 (p : Pins) (s : Sys) : Sys :=
  if s.m1.dir ≠ 0 ∧ s.r1.prevDir = 0 then
    if p.lim1closed = true ∨ p.lim1open = true then
      { s with r1 := { s.r1 with fullRunActive := true, tickCounter := 0, wasClosing := s.m1.dir = OPEN } }
    else { s with r1 := { s.r1 with fullRunActive := false } }
  else s

/-- Recorder 1 tick counting while the motor runs and the run is active. -/
def recCount1 (s : Sys) : Sys :=
  if s.m1.dir ≠ 0 ∧ s.r1.fullRunActive = true then
    { s with r1 := { s.r1 with tickCounter := s.r1.tickCounter + 1 } }
  else s

/-- Recorder 1 stop detection: on a running-to-stopped transition of an
active run, record the run as valid (at the travel-target limit) or as
interrupted, then deactivate the run. -/
def recStop1 (p : Pins) (s : Sys) : Sys :=
  if s.m1.dir = 0 ∧ s.r1.prevDir ≠ 0 then
    if s.r1.fullRunActive = true then
      let t :=
        if s.r1.wasClosing = true ∧ p.lim1open = true then
          { s with r1 := { s.r1 with lastTicksClosing := s.r1.tickCounter, lastDirection := 1, dataReady := true } }
        else if s.r1.wasClosing = false ∧ p.lim1closed = true then
          { s with r1 := { s.r1 with lastTicksOpening := s.r1.tickCounter, lastDirection := 2, dataReady := true } }
        else
          let d := if s.r1.wasClosing = true then 1 else 2
          { s with r1 := { s.r1 with interruptTicks := s.r1.tickCounter, interruptDirection := d, interruptReady := true } }
      { t with r1 := { t.r1 with fullRunActive := false } }
    else s
  else s

/-- Motor 1 runtime tick recorder, run after all motor control decisions:
start detection, tick counting, stop detection, prev_dir bookkeeping. -/
def isrRecorder1 (p : Pins) (s : Sys) : Sys :=
  let s3 := recStop1 p (recCount1 (recStart1 p s))
  { s3 with r1 := { s3.r1 with prevDir := s3.m1.dir } }

/-- Recorder 2 start detection (same structure as motor 1). -/
def recStart2 (p : Pins) (s : Sys) : Sys :=
  if s.m2.dir ≠ 0 ∧ s.r2.prevDir = 0 then
    if p.lim2closed = true ∨ p.lim2open = true then
      { s with r2 := { s.r2 with fullRunActive := true, tickCounter := 0, wasClosing := s.m2.dir = OPEN } }
    else { s with r2 := { s.r2 with fullRunActive := false } }
  else s

/-- Recorder 2 tick counting. -/
def recCount2 (s : Sys) : Sys :=
  if s.m2.dir ≠ 0 ∧ s.r2.fullRunActive = true then
    { s with r2 := { s.r2 with tickCounter := s.r2.tickCounter + 1 } }
  else s

/-- Recorder 2 stop detection. -/
def recStop2 (p : Pins) (s : Sys) : Sys :=
  if s.m2.dir = 0 ∧ s.r2.prevDir ≠ 0 then
    if s.r2.fullRunActive = true then
      let t :=
        if s.r2.wasClosing = true ∧ p.lim2open = true then
          { s with r2 := { s.r2 with lastTicksClosing := s.r2.tickCounter, lastDirection := 1, dataReady := true } }
        else if s.r2.wasClosing = false ∧ p.lim2closed = true then
          { s with r2 := { s.r2 with lastTicksOpening := s.r2.tickCounter, lastDirection := 2, dataReady := true } }
        else
          let d := if s.r2.wasClosing = true then 1 else 2
          { s with r2 := { s.r2 with interruptTicks := s.r2.tickCounter, interruptDirection := d, interruptReady := true } }
      { t with r2 := { t.r2 with fullRunActive := false } }
    else s
  else s

/-- Motor 2 runtime tick recorder (same structure as motor 1). -/
def isrRecorder2 (p : Pins) (s : Sys) : Sys :=
  let s3 := recStop2 p (recCount2 (recStart2 p s))
  { s3 with r2 := { s3.r2 with prevDir := s3.m2.dir } }

/-- One full Timer2 ISR tick (the system_fully_ready case), in source order. -/
def isrTick (p : Pins) (s : Sys) : Sys :=
  isrRecorder2 p (isrRecorder1 p (isrButtonRelease p (isrButtons p (isrPwm
    (isrTimeout (isrLimitStops p (isrStopReasonClear p (isrEmergencyStop p
      (isrDebounceTick s)))))))))

/-- Motor commands of handleWebClient for opcodes 1..5: an opposite-direction
command auto-stops first (reason 2), then the start executes only if the
target limit reads LOW; opcode 5 stops both motors with reason 2. -/
def webCmd (c : Nat) (p : Pins) (s : Sys) : Sys :=
  if c = 1 then
    let s1 :=
      if s.m1.dir ≠ 0 ∧ s.m1.dir ≠ OPEN then
        { s with m1 := { s.m1 with dir := 0, stopReason := 2, autoClosedByIP := false } }
      else s
    if p.lim1open = false then
      { s1 with m1 := { s1.m1 with dir := OPEN, timer := MAX_MOT1_OPEN, stopReason := 0, autoClosedByIP := false } }
    else s1
  else if c = 2 then
    let s1 :=
      if s.m1.dir ≠ 0 ∧ s.m1.dir ≠ CLOSE then
        { s with m1 := { s.m1 with dir := 0, stopReason := 2, autoClosedByIP := false } }
      else s
    if p.lim1closed = false then
      { s1 with m1 := { s1.m1 with dir := CLOSE, timer := MAX_MOT1_CLOSE, stopReason := 0, autoClosedByIP := false } }
    else s1
  else if c = 3 then
    let s1 :=
      if s.m2.dir ≠ 0 ∧ s.m2.dir ≠ OPEN then
        { s with m2 := { s.m2 with dir := 0, stopReason := 2, autoClosedByIP := false } }
      else s
    if p.lim2open = false then
      { s1 with m2 := { s1.m2 with dir := OPEN, timer := MAX_MOT2_OPEN, stopReason := 0, autoClosedByIP := false } }
    else s1
  else if c = 4 then
    let s1 :=
      if s.m2.dir ≠ 0 ∧ s.m2.dir ≠ CLOSE then
        { s with m2 := { s.m2 with dir := 0, stopReason := 2, autoClosedByIP := false } }
      else s
    if p.lim2closed = false then
      { s1 with m2 := { s1.m2 with dir := CLOSE, timer := MAX_MOT2_CLOSE, stopReason := 0, autoClosedByIP := false } }
    else s1
  else if c = 5 then
    { s with
      m1 := { s.m1 with dir := 0, stopReason := 2, autoClosedByIP := false },
      m2 := { s.m2 with dir := 0, stopReason := 2, autoClosedByIP := false } }
  else s

/-- saveCountersToEEPROM: writes the counters to the EEPROM image only when
the dirty flag is set and more than 5 minutes (300000 ms) have passed
since the last save. -/
def saveCountersToEEPROM (now : Nat) (s : Sys) : Sys :=
  if s.eepromDirty = true ∧ 300000 < now - s.lastSave then
    { s with eeIpFails := s.totalIpFailures, eeAutoCloses := s.totalAutoCloses,
             eeDay := s.dayCounter, lastSave := now, eepromDirty := false }
  else s

/-- Physical link state as reported by Ethernet.linkStatus(). -/
inductive LinkSt where
  | off
  | on
  | unknown
deriving Repr, DecidableEq

/-- Environment sampled by one call of checkRemoteConnectionAndAutoClose:
the millis() clock, the link status, whether Ethernet.localIP() reads
0.0.0.0, the outcome a connection probe would have, the outcome a
setupEthernet() call would leave in ethernet_initialized, and the two
closed-limit reads. -/
structure NetEnv where
  now : Nat
  link : LinkSt
  localIpZero : Bool
  probeOk : Bool
  setupOk : Bool
  lim1open : Bool
  lim2open : Bool
deriving Repr, DecidableEq

/-- The auto-close action block (duplicated verbatim in the source for the
cable-removal path and the windowed-failure path): command each motor that
is neither already driving toward OPEN nor at its closed limit, and if any
action was taken increment totalAutoCloses, mark the EEPROM dirty and call
saveCountersToEEPROM. -/
def autoCloseMotors (e : NetEnv) (s : Sys) : Sys :=
  let a1 := s.m1.dir ≠ OPEN ∧ e.lim1open = false
  let s1 :=
    if a1 then
      { s with m1 := { s.m1 with dir := OPEN, timer := MAX_MOT1_OPEN, autoClosedByIP := true, stopReason := 3 } }
    else s
  let a2 := s.m2.dir ≠ OPEN ∧ e.lim2open = false
  let s2 :=
    if a2 then
      { s1 with m2 := { s1.m2 with dir := OPEN, timer := MAX_MOT2_OPEN, autoClosedByIP := true, stopReason := 3 } }
    else s1
  if a1 ∨ a2 then
    saveCountersToEEPROM e.now
      { s2 with totalAutoCloses := s2.totalAutoCloses + 1, eepromDirty := true }
  else s2

/-- The trigger check at the end of the dome-open, link-not-off path: fire
the auto-close when connectFailCount reached 5 within the 5-minute
window, then clear both counters. -/
def autoCloseTrigger (e : NetEnv) (s : Sys) : Sys :=
  if 5 ≤ s.connectFailCount ∧ e.now - s.firstFailTimestamp ≤ 300000 then
    { autoCloseMotors e s with connectFailCount := 0, firstFailTimestamp := 0 }
  else s

/-- The Link-is-on recovery condition: link up but Ethernet.localIP() reads
0.0.0.0 (needsRecovery in the source). -/
def needsRecovery (e : NetEnv) : Prop := e.link = LinkSt.on ∧ e.localIpZero = true

instance (e : NetEnv) : Decidable (needsRecovery e) := by
  unfold needsRecovery; infer_instance

/-- Cable back: reset the removal trigger flag when the link reads on. -/
def cableBackReset (e : NetEnv) (s : Sys) : Sys :=
  if e.link = LinkSt.on ∧ s.cableRemovalTriggered = true then
    { s with cableRemovalTriggered := false }
  else s

/-- Ethernet auto-recovery bookkeeping around the static wasLinkDown flag
(linkDown is false on this path): on recovery rerun setupEthernet and
reset the fail counters; otherwise remember a broken Ethernet stack. -/
def ethAutoRecovery (e : NetEnv) (s : Sys) : Sys :=
  if s.wasLinkDown = true ∧ ¬needsRecovery e ∧ s.ethInit = true then
    { s with ethInit := e.setupOk, wasLinkDown := false,
             connectFailCount := 0, firstFailTimestamp := 0 }
  else if s.ethInit = false then { s with wasLinkDown := true } else s

/-- IP recovery: rerun setupEthernet when the link is up but the IP is lost. -/
def ipRecovery (e : NetEnv) (s : Sys) : Sys :=
  if needsRecovery e ∧ s.ethInit = true then { s with ethInit := e.setupOk } else s

/-- Probe success handling: reset the fail counters and rescind any
monitor-owned closing command (a channel with mXAutoClosedByIP set that is
still driving toward OPEN returns to idle with its reason cleared). -/
def probeSuccess (s : Sys) : Sys :=
  let sS : Sys := { s with connectFailCount := 0, firstFailTimestamp := 0 }
  let sS1 :=
    if sS.m1.autoClosedByIP = true ∧ sS.m1.dir = OPEN then
      { sS with m1 := { sS.m1 with dir := 0, stopReason := 0, autoClosedByIP := false } }
    else sS
  if sS1.m2.autoClosedByIP = true ∧ sS1.m2.dir = OPEN then
    { sS1 with m2 := { sS1.m2 with dir := 0, stopReason := 0, autoClosedByIP := false } }
  else sS1

/-- Probe failure handling: start the window if unset, increment both fail
counters and set the dirty flag, then restart the window with count 1 if
the 5-minute window has expired. -/
def probeFailure (now : Nat) (s : Sys) : Sys :=
  let sF := if s.firstFailTimestamp = 0 then { s with firstFailTimestamp := now } else s
  let sF1 : Sys := { sF with connectFailCount := sF.connectFailCount + 1,
                             totalIpFailures := sF.totalIpFailures + 1, eepromDirty := true }
  if 300000 < now - sF1.firstFailTimestamp then
    { sF1 with connectFailCount := 1, firstFailTimestamp := now }
  else sF1

/-- Outcome of one connection attempt: a networkProblem counts as failed; a
real probe runs only with no recovery pending and the Ethernet stack up
(linkDown is false on this path). -/
def connectionOK (e : NetEnv) (networkProblem0 : Bool) (ethInitNow : Bool) : Bool :=
  if networkProblem0 = true ∨ needsRecovery e then false
  else if ¬needsRecovery e ∧ ethInitNow = true then e.probeOk
  else false

/-- The rate-limited connection attempt (at most one per minute); the
networkProblem0 argument is the problem flag computed at the entry of
checkRemoteConnectionAndAutoClose (ethernet_initialized was false). -/
def probeAttempt (e : NetEnv) (networkProblem0 : Bool) (s : Sys) : Sys :=
  if 60000 ≤ e.now - s.lastConnectAttempt then
    let sD := if connectionOK e networkProblem0 s.ethInit = true then probeSuccess s
              else probeFailure e.now s
    { sD with lastConnectAttempt := e.now }
  else s

/-- The link-not-off part of the monitor before the trigger check: reset the
cable flag when the link is back, Ethernet auto-recovery bookkeeping, and
the rate-limited connection probe with its success/failure handling. -/
def linkUpProbe (e : NetEnv) (s : Sys) : Sys :=
  probeAttempt e (!s.ethInit) (ipRecovery e (ethAutoRecovery e (cableBackReset e s)))

/-- checkRemoteConnectionAndAutoClose: skip everything while network
monitoring is disabled; with the dome not fully closed, the cable-removal
path fires the auto-close once per removal episode and returns, while the
link-up path runs the probe logic and the windowed trigger; with the dome
fully closed, all failure state is cleared. -/
def checkRemoteConnectionAndAutoClose (e : NetEnv) (s : Sys) : Sys :=
  if s.networkMonitoringEnabled = false then s
  else
    let domeIsNotFullyClosed :=
      (e.lim1open = false ∨ e.lim2open = false) ∨ (s.m1.dir = CLOSE ∨ s.m2.dir = CLOSE)
    if domeIsNotFullyClosed then
      if e.link = LinkSt.off then
        if s.cableRemovalTriggered = false then
          { autoCloseMotors e s with cableRemovalTriggered := true }
        else s
      else
        autoCloseTrigger e (linkUpProbe e s)
    else
      { s with connectFailCount := 0, firstFailTimestamp := 0, lastConnectAttempt := e.now,
               m1 := { s.m1 with autoClosedByIP := false },
               m2 := { s.m2 with autoClosedByIP := false } }

/-- An all-zero motor channel. -/
def motor0 : Motor := { dir := 0, speed := 0, timer := 0, stopReason := 0, autoClosedByIP := false }

/-- An all-zero recorder. -/
def rec0 : Recorder :=
  { tickCounter := 0, fullRunActive := false, wasClosing := false, prevDir := 0,
    lastTicksClosing := 0, lastTicksOpening := 0, lastDirection := 0, dataReady := false,
    interruptTicks := 0, interruptDirection := 0, interruptReady := false }

/-- The post-setup() baseline state (network monitoring enabled and
Ethernet initialized, everything else as setup() leaves it). -/
def s0 : Sys :=
  { m1 := motor0, m2 := motor0,
    sw1upFlag := false, sw1downFlag := false, sw2upFlag := false, sw2downFlag := false,
    swstopFlag := false, cnt := 0, r1 := rec0, r2 := rec0,
    networkMonitoringEnabled := true, ethInit := true,
    connectFailCount := 0, lastConnectAttempt := 0, firstFailTimestamp := 0,
    totalIpFailures := 0, totalAutoCloses := 0, eepromDirty := false,
    cableRemovalTriggered := false, wasLinkDown := false,
    dayCounter := 0, eeIpFails := 0, eeAutoCloses := 0, eeDay := 0, lastSave := 0 }

/-- Quiet pin sample: no button pressed (all read HIGH), no limit reached. -/
def pQuiet : Pins :=
  { swstop := true, lim1open := false, lim1closed := false, lim2open := false,
    lim2closed := false, sw1up := true, sw1down := true, sw2up := true, sw2down := true }

/-- Pin sample with every limit switch asserted and no button pressed. -/
def pAllLims : Pins :=
  { swstop := true, lim1open := true, lim1closed := true, lim2open := true,
    lim2closed := true, sw1up := true, sw1down := true, sw2up := true, sw2down := true }

/-- Environment sample with both closed limits asserted and the link up. -/
def eAllLims : NetEnv :=
  { now := 0, link := LinkSt.on, localIpZero := false, probeOk := true, setupOk := true,
    lim1open := true, lim2open := true }

/-- Pin sample with only the SW1up button pressed (reads LOW). -/
def pSW1up : Pins := { pQuiet with sw1up := false }

/-- A state with motor 1 idle after a button stop (stopReason 1). -/
def s6 : Sys := { s0 with m1 := { motor0 with stopReason := 1 } }

/-- A state with motor 1 started by a remote close command from the baseline
state (the timeout countdown is loaded with MAX_MOT1_OPEN). -/
def s7 : Sys := webCmd 1 pQuiet s0

/-- Environment for a supervisory check finding the cable removed 40 seconds
after the last durable counter write. -/
def e5 : NetEnv :=
  { now := 100000, link := LinkSt.off, localIpZero := false, probeOk := false,
    setupOk := true, lim1open := false, lim2open := false }

/-- Baseline state whose last durable counter write happened at t = 60000 ms. -/
def s5 : Sys := { s0 with lastSave := 60000 }

/-- Environment for a supervisory check with the cable removed, motor 2 at
its closed boundary and motor 1 away from it. -/
def eC3 : NetEnv :=
  { now := 100000, link := LinkSt.off, localIpZero := false, probeOk := false,
    setupOk := true, lim1open := false, lim2open := true }

/-- State with motor 1 closing mid-travel under an operator command
(failsafe ownership clear) and motor 2 idle. -/
def sC3 : Sys := { s0 with m1 := { motor0 with dir := 1, timer := 500 } }

/-- Block behaviour of limStop1open: motor 2 untouched; with lim1open
asserted the result never drives toward OPEN; the block never sets CLOSE
and never starts a stopped motor. -/
theorem limStop1open_dir (p : Pins) (s : Sys) :
    (limStop1open p s).m2 = s.m2 ∧
    (p.lim1open = true → (limStop1open p s).m1.dir ≠ OPEN) ∧
    (s.m1.dir ≠ CLOSE → (limStop1open p s).m1.dir ≠ CLOSE) := by
  simp only [limStop1open]
  split_ifs <;> simp_all [OPEN, CLOSE]

/-- Block behaviour of limStop1closed. -/
theorem limStop1closed_dir (p : Pins) (s : Sys) :
    (limStop1closed p s).m2 = s.m2 ∧
    (p.lim1closed = true → (limStop1closed p s).m1.dir ≠ CLOSE) ∧
    (s.m1.dir ≠ OPEN → (limStop1closed p s).m1.dir ≠ OPEN) := by
  simp only [limStop1closed]
  split_ifs <;> simp_all [OPEN, CLOSE]

/-- Block behaviour of limStop2open. -/
theorem limStop2open_dir (p : Pins) (s : Sys) :
    (limStop2open p s).m1 = s.m1 ∧
    (p.lim2open = true → (limStop2open p s).m2.dir ≠ OPEN) ∧
    (s.m2.dir ≠ CLOSE → (limStop2open p s).m2.dir ≠ CLOSE) := by
  simp only [limStop2open]
  split_ifs <;> simp_all [OPEN, CLOSE]

/-- Block behaviour of limStop2closed. -/
theorem limStop2closed_dir (p : Pins) (s : Sys) :
    (limStop2closed p s).m1 = s.m1 ∧
    (p.lim2closed = true → (limStop2closed p s).m2.dir ≠ CLOSE) ∧
    (s.m2.dir ≠ OPEN → (limStop2closed p s).m2.dir ≠ OPEN) := by
  simp only [limStop2closed]
  split_ifs <;> simp_all [OPEN, CLOSE]

/-- The limit-stop section leaves no motor driving toward an asserted limit. -/
theorem isrLimitStops_not_toward (p : Pins) (s : Sys) :
    (p.lim1open = true → (isrLimitStops p s).m1.dir ≠ OPEN) ∧
    (p.lim1closed = true → (isrLimitStops p s).m1.dir ≠ CLOSE) ∧
    (p.lim2open = true → (isrLimitStops p s).m2.dir ≠ OPEN) ∧
    (p.lim2closed = true → (isrLimitStops p s).m2.dir ≠ CLOSE) := by
  unfold isrLimitStops
  generalize h1 : limStop1open p s = a
  generalize h2 : limStop1closed p a = b
  generalize h3 : limStop2open p b = d
  have r1 := limStop1open_dir p s; rw [h1] at r1
  have r2 := limStop1closed_dir p a; rw [h2] at r2
  have r3 := limStop2open_dir p b; rw [h3] at r3
  have r4 := limStop2closed_dir p d
  refine ⟨fun hl => ?_, fun hl => ?_, fun hl => ?_, fun hl => ?_⟩
  · rw [r4.1, r3.1]
    exact r2.2.2 (r1.2.1 hl)
  · rw [r4.1, r3.1]
    exact r2.2.1 hl
  · refine r4.2.2 (r3.2.1 hl)
  · refine r4.2.1 hl

/-- The timeout section either keeps a motor direction or forces it to 0. -/
theorem isrTimeout_dir (s : Sys) :
    ((isrTimeout s).m1.dir = s.m1.dir ∨ (isrTimeout s).m1.dir = 0) ∧
    ((isrTimeout s).m2.dir = s.m2.dir ∨ (isrTimeout s).m2.dir = 0) := by
  simp only [isrTimeout]
  split_ifs <;> simp_all

/-- The PWM ramp never changes a motor direction. -/
theorem isrPwm_dir (s : Sys) :
    (isrPwm s).m1.dir = s.m1.dir ∧ (isrPwm s).m2.dir = s.m2.dir := by
  simp only [isrPwm]
  split_ifs <;> simp_all

/-- The SW1up block touches only motor 1, and never sets OPEN against an
asserted lim1open nor ever sets CLOSE. -/
theorem buttonSW1up_dir (p : Pins) (s : Sys) :
    (buttonSW1up p s).m2 = s.m2 ∧
    (p.lim1open = true → s.m1.dir ≠ OPEN → (buttonSW1up p s).m1.dir ≠ OPEN) ∧
    (s.m1.dir ≠ CLOSE → (buttonSW1up p s).m1.dir ≠ CLOSE) := by
  simp only [buttonSW1up]
  split_ifs <;> simp_all [OPEN, CLOSE]

/-- The SW1down block touches only motor 1, and never sets CLOSE against an
asserted lim1closed nor ever sets OPEN. -/
theorem buttonSW1down_dir (p : Pins) (s : Sys) :
    (buttonSW1down p s).m2 = s.m2 ∧
    (p.lim1closed = true → s.m1.dir ≠ CLOSE → (buttonSW1down p s).m1.dir ≠ CLOSE) ∧
    (s.m1.dir ≠ OPEN → (buttonSW1down p s).m1.dir ≠ OPEN) := by
  simp only [buttonSW1down]
  split_ifs <;> simp_all [OPEN, CLOSE]

/-- The SW2up block touches only motor 2, and never sets OPEN against an
asserted lim2open nor ever sets CLOSE. -/
theorem buttonSW2up_dir (p : Pins) (s : Sys) :
    (buttonSW2up p s).m1 = s.m1 ∧
    (p.lim2open = true → s.m2.dir ≠ OPEN → (buttonSW2up p s).m2.dir ≠ OPEN) ∧
    (s.m2.dir ≠ CLOSE → (buttonSW2up p s).m2.dir ≠ CLOSE) := by
  simp only [buttonSW2up]
  split_ifs <;> simp_all [OPEN, CLOSE]

/-- The SW2down block touches only motor 2, and never sets CLOSE against an
asserted lim2closed nor ever sets OPEN. -/
theorem buttonSW2down_dir (p : Pins) (s : Sys) :
    (buttonSW2down p s).m1 = s.m1 ∧
    (p.lim2closed = true → s.m2.dir ≠ CLOSE → (buttonSW2down p s).m2.dir ≠ CLOSE) ∧
    (s.m2.dir ≠ OPEN → (buttonSW2down p s).m2.dir ≠ OPEN) := by
  simp only [buttonSW2down]
  split_ifs <;> simp_all [OPEN, CLOSE]

/-- The button section never starts a motor toward an asserted limit. -/
theorem isrButtons_not_toward (p : Pins) (s : Sys) :
    (p.lim1open = true → s.m1.dir ≠ OPEN → (isrButtons p s).m1.dir ≠ OPEN) ∧
    (p.lim1closed = true → s.m1.dir ≠ CLOSE → (isrButtons p s).m1.dir ≠ CLOSE) ∧
    (p.lim2open = true → s.m2.dir ≠ OPEN → (isrButtons p s).m2.dir ≠ OPEN) ∧
    (p.lim2closed = true → s.m2.dir ≠ CLOSE → (isrButtons p s).m2.dir ≠ CLOSE) := by
  unfold isrButtons
  generalize h1 : buttonSW1up p s = a
  generalize h2 : buttonSW1down p a = b
  generalize h3 : buttonSW2up p b = d
  have r1 := buttonSW1up_dir p s; rw [h1] at r1
  have r2 := buttonSW1down_dir p a; rw [h2] at r2
  have r3 := buttonSW2up_dir p b; rw [h3] at r3
  have r4 := buttonSW2down_dir p d
  have hm1ab : b.m1.dir ≠ OPEN → d.m1.dir ≠ OPEN := by rw [r3.1]; exact id
  have hm1ab2 : b.m1.dir ≠ CLOSE → d.m1.dir ≠ CLOSE := by rw [r3.1]; exact id
  refine ⟨fun hl h0 => ?_, fun hl h0 => ?_, fun hl h0 => ?_, fun hl h0 => ?_⟩
  · rw [r4.1, r3.1]
    exact r2.2.2 (r1.2.1 hl h0)
  · rw [r4.1, r3.1]
    exact r2.2.1 hl (r1.2.2 h0)
  · refine r4.2.2 (r3.2.1 hl ?_)
    have : a.m2.dir = s.m2.dir := by rw [r1.1]
    rw [r2.1, this]
    exact h0
  · refine r4.2.1 hl (r3.2.2 ?_)
    have : a.m2.dir = s.m2.dir := by rw [r1.1]
    rw [r2.1, this]
    exact h0

/-- Button release detection does not touch the motor channels. -/
theorem isrButtonRelease_m (p : Pins) (s : Sys) :
    (isrButtonRelease p s).m1 = s.m1 ∧ (isrButtonRelease p s).m2 = s.m2 := by
  simp only [isrButtonRelease]
  split_ifs <;> simp_all

/-- Each recorder sub-step leaves the motor channels untouched. -/
theorem recSteps_m (p : Pins) (s : Sys) :
    ((recStart1 p s).m1 = s.m1 ∧ (recStart1 p s).m2 = s.m2) ∧
    ((recCount1 s).m1 = s.m1 ∧ (recCount1 s).m2 = s.m2) ∧
    ((recStop1 p s).m1 = s.m1 ∧ (recStop1 p s).m2 = s.m2) ∧
    ((recStart2 p s).m1 = s.m1 ∧ (recStart2 p s).m2 = s.m2) ∧
    ((recCount2 s).m1 = s.m1 ∧ (recCount2 s).m2 = s.m2) ∧
    ((recStop2 p s).m1 = s.m1 ∧ (recStop2 p s).m2 = s.m2) := by
  refine ⟨⟨?_, ?_⟩, ⟨?_, ?_⟩, ⟨?_, ?_⟩, ⟨?_, ?_⟩, ⟨?_, ?_⟩, ⟨?_, ?_⟩⟩ <;>
    first
    | (simp only [recStart1]; split_ifs <;> rfl)
    | (simp only [recCount1]; split_ifs <;> rfl)
    | (simp only [recStop1]; split_ifs <;> rfl)
    | (simp only [recStart2]; split_ifs <;> rfl)
    | (simp only [recCount2]; split_ifs <;> rfl)
    | (simp only [recStop2]; split_ifs <;> rfl)

/-- The tick recorders do not touch the motor channels. -/
theorem isrRecorder_m (p : Pins) (s : Sys) :
    ((isrRecorder1 p s).m1 = s.m1 ∧ (isrRecorder1 p s).m2 = s.m2) ∧
    ((isrRecorder2 p s).m1 = s.m1 ∧ (isrRecorder2 p s).m2 = s.m2) := by
  constructor
  · unfold isrRecorder1
    have h1 := (recSteps_m p s).1
    have h2 := (recSteps_m p (recStart1 p s)).2.1
    have h3 := (recSteps_m p (recCount1 (recStart1 p s))).2.2.1
    constructor
    · show (recStop1 p (recCount1 (recStart1 p s))).m1 = s.m1
      rw [h3.1, h2.1, h1.1]
    · show (recStop1 p (recCount1 (recStart1 p s))).m2 = s.m2
      rw [h3.2, h2.2, h1.2]
  · unfold isrRecorder2
    have h1 := (recSteps_m p s).2.2.2.1
    have h2 := (recSteps_m p (recStart2 p s)).2.2.2.2.1
    have h3 := (recSteps_m p (recCount2 (recStart2 p s))).2.2.2.2.2
    constructor
    · show (recStop2 p (recCount2 (recStart2 p s))).m1 = s.m1
      rw [h3.1, h2.1, h1.1]
    · show (recStop2 p (recCount2 (recStart2 p s))).m2 = s.m2
      rw [h3.2, h2.2, h1.2]

/-- saveCountersToEEPROM does not touch the motor channels. -/
theorem saveCounters_m (n : Nat) (s : Sys) :
    (saveCountersToEEPROM n s).m1 = s.m1 ∧ (saveCountersToEEPROM n s).m2 = s.m2 := by
  simp only [saveCountersToEEPROM]
  split_ifs <;> simp_all

/-- With a closed limit asserted, the auto-close block skips that motor. -/
theorem autoCloseMotors_skip (e : NetEnv) (s : Sys) :
    (e.lim1open = true → (autoCloseMotors e s).m1 = s.m1) ∧
    (e.lim2open = true → (autoCloseMotors e s).m2 = s.m2) := by
  simp only [autoCloseMotors]
  split_ifs <;> simp_all [saveCounters_m]

/-- With a closed limit asserted, the windowed trigger leaves that motor alone. -/
theorem autoCloseTrigger_skip (e : NetEnv) (s : Sys) :
    (e.lim1open = true → (autoCloseTrigger e s).m1 = s.m1) ∧
    (e.lim2open = true → (autoCloseTrigger e s).m2 = s.m2) := by
  simp only [autoCloseTrigger]
  split_ifs with h
  · exact ⟨fun h1 => (autoCloseMotors_skip e s).1 h1,
      fun h2 => (autoCloseMotors_skip e s).2 h2⟩
  · exact ⟨fun _ => rfl, fun _ => rfl⟩

/-- The recovery bookkeeping steps leave the motor channels untouched. -/
theorem recoverySteps_m (e : NetEnv) (s : Sys) :
    ((cableBackReset e s).m1 = s.m1 ∧ (cableBackReset e s).m2 = s.m2) ∧
    ((ethAutoRecovery e s).m1 = s.m1 ∧ (ethAutoRecovery e s).m2 = s.m2) ∧
    ((ipRecovery e s).m1 = s.m1 ∧ (ipRecovery e s).m2 = s.m2) ∧
    ((probeFailure e.now s).m1 = s.m1 ∧ (probeFailure e.now s).m2 = s.m2) := by
  refine ⟨⟨?_, ?_⟩, ⟨?_, ?_⟩, ⟨?_, ?_⟩, ⟨?_, ?_⟩⟩ <;>
    first
    | (simp only [cableBackReset]; split_ifs <;> rfl)
    | (simp only [ethAutoRecovery]; split_ifs <;> rfl)
    | (simp only [ipRecovery]; split_ifs <;> rfl)
    | (simp only [probeFailure]; split_ifs <;> rfl)

/-- Probe success either keeps a motor direction or idles it. -/
theorem probeSuccess_dir (s : Sys) :
    ((probeSuccess s).m1.dir = s.m1.dir ∨ (probeSuccess s).m1.dir = 0) ∧
    ((probeSuccess s).m2.dir = s.m2.dir ∨ (probeSuccess s).m2.dir = 0) := by
  simp only [probeSuccess]
  split_ifs <;> simp_all

/-- The probe part of the monitor either keeps a motor direction or idles it. -/
theorem linkUpProbe_dir (e : NetEnv) (s : Sys) :
    ((linkUpProbe e s).m1.dir = s.m1.dir ∨ (linkUpProbe e s).m1.dir = 0) ∧
    ((linkUpProbe e s).m2.dir = s.m2.dir ∨ (linkUpProbe e s).m2.dir = 0) := by
  unfold linkUpProbe
  generalize hq : ipRecovery e (ethAutoRecovery e (cableBackReset e s)) = q
  have hqm : q.m1 = s.m1 ∧ q.m2 = s.m2 := by
    rw [← hq]
    have h1 := (recoverySteps_m e s).1
    have h2 := (recoverySteps_m e (cableBackReset e s)).2.1
    have h3 := (recoverySteps_m e (ethAutoRecovery e (cableBackReset e s))).2.2.1
    exact ⟨by rw [h3.1, h2.1, h1.1], by rw [h3.2, h2.2, h1.2]⟩
  have key : ∀ b, ((probeAttempt e b q).m1.dir = q.m1.dir ∨ (probeAttempt e b q).m1.dir = 0) ∧
      ((probeAttempt e b q).m2.dir = q.m2.dir ∨ (probeAttempt e b q).m2.dir = 0) := by
    intro b
    simp only [probeAttempt]
    split_ifs with h1 h2
    · have hs := probeSuccess_dir q
      constructor
      · simpa using hs.1
      · simpa using hs.2
    · have hf := (recoverySteps_m e q).2.2.2
      constructor
      · simp [hf.1]
      · simp [hf.2]
    · exact ⟨Or.inl rfl, Or.inl rfl⟩
  rw [← hqm.1, ← hqm.2]
  exact key (!s.ethInit)

/-- Claim C1: a motor channel is never set to actuate toward a boundary whose
limit sensor already reads reached.  Every ISR tick ends with no motor
driving toward an asserted limit; a web motor command and a supervisory
monitor call can only leave a motor driving toward an asserted limit if it
was already doing so beforehand (the transient the next tick then clears). -/
theorem C1_never_toward_reached_limit (p : Pins) (c : Nat) (e : NetEnv) (s : Sys) :
    ((p.lim1open = true → (isrTick p s).m1.dir ≠ OPEN) ∧
     (p.lim1closed = true → (isrTick p s).m1.dir ≠ CLOSE) ∧
     (p.lim2open = true → (isrTick p s).m2.dir ≠ OPEN) ∧
     (p.lim2closed = true → (isrTick p s).m2.dir ≠ CLOSE)) ∧
    ((p.lim1open = true → (webCmd c p s).m1.dir = OPEN → s.m1.dir = OPEN) ∧
     (p.lim1closed = true → (webCmd c p s).m1.dir = CLOSE → s.m1.dir = CLOSE) ∧
     (p.lim2open = true → (webCmd c p s).m2.dir = OPEN → s.m2.dir = OPEN) ∧
     (p.lim2closed = true → (webCmd c p s).m2.dir = CLOSE → s.m2.dir = CLOSE)) ∧
    ((e.lim1open = true → (checkRemoteConnectionAndAutoClose e s).m1.dir = OPEN →
        s.m1.dir = OPEN) ∧
     (e.lim2open = true → (checkRemoteConnectionAndAutoClose e s).m2.dir = OPEN →
        s.m2.dir = OPEN)) := by
  refine ⟨?_, ?_, ?_⟩
  · unfold isrTick
    generalize isrStopReasonClear p (isrEmergencyStop p (isrDebounceTick s)) = a
    generalize hL : isrLimitStops p a = b
    generalize hT : isrTimeout b = d
    generalize hP : isrPwm d = f
    generalize hB : isrButtons p f = g
    generalize hR : isrButtonRelease p g = h
    generalize hQ : isrRecorder1 p h = i
    have rl := isrLimitStops_not_toward p a
    rw [hL] at rl
    have rt := isrTimeout_dir b
    rw [hT] at rt
    have rp := isrPwm_dir d
    rw [hP] at rp
    have rb := isrButtons_not_toward p f
    rw [hB] at rb
    have rr := isrButtonRelease_m p g
    rw [hR] at rr
    have rq := (isrRecorder_m p h).1
    rw [hQ] at rq
    have rq2 := (isrRecorder_m p i).2
    refine ⟨fun h1 => ?_, fun h1 => ?_, fun h1 => ?_, fun h1 => ?_⟩
    · rw [rq2.1, rq.1, rr.1]
      refine rb.1 h1 ?_
      rw [rp.1]
      rcases rt.1 with ht | ht
      · rw [ht]; exact rl.1 h1
      · rw [ht]; simp [OPEN]
    · rw [rq2.1, rq.1, rr.1]
      refine rb.2.1 h1 ?_
      rw [rp.1]
      rcases rt.1 with ht | ht
      · rw [ht]; exact rl.2.1 h1
      · rw [ht]; simp [CLOSE]
    · rw [rq2.2, rq.2, rr.2]
      refine rb.2.2.1 h1 ?_
      rw [rp.2]
      rcases rt.2 with ht | ht
      · rw [ht]; exact rl.2.2.1 h1
      · rw [ht]; simp [OPEN]
    · rw [rq2.2, rq.2, rr.2]
      refine rb.2.2.2 h1 ?_
      rw [rp.2]
      rcases rt.2 with ht | ht
      · rw [ht]; exact rl.2.2.2 h1
      · rw [ht]; simp [CLOSE]
  · simp only [webCmd]
    split_ifs <;> first
      | (simp_all [OPEN, CLOSE]; done)
      | (simp_all [OPEN, CLOSE]; omega)
      | omega
  · constructor
    · intro h1
      simp only [checkRemoteConnectionAndAutoClose]
      split_ifs with hm hd hoff hflag
      · exact id
      · have := (autoCloseMotors_skip e s).1 h1
        simp [this]
      · exact id
      · intro hdir
        have ht := (autoCloseTrigger_skip e (linkUpProbe e s)).1 h1
        rw [ht] at hdir
        rcases (linkUpProbe_dir e s).1 with hp1 | hp1
        · exact hp1.symm.trans hdir
        · exfalso
          have h0 : (0 : Nat) = OPEN := hp1.symm.trans hdir
          simp [OPEN] at h0
      · simp
    · intro h1
      simp only [checkRemoteConnectionAndAutoClose]
      split_ifs with hm hd hoff hflag
      · exact id
      · have := (autoCloseMotors_skip e s).2 h1
        simp [this]
      · exact id
      · intro hdir
        have ht := (autoCloseTrigger_skip e (linkUpProbe e s)).2 h1
        rw [ht] at hdir
        rcases (linkUpProbe_dir e s).2 with hp1 | hp1
        · exact hp1.symm.trans hdir
        · exfalso
          have h0 : (0 : Nat) = OPEN := hp1.symm.trans hdir
          simp [OPEN] at h0
      · simp

/-- Witness for C1 at concrete inputs: with every limit asserted, a tick from
a state driving motor 1 toward OPEN idles it, and a web close command on a
motor already driving toward OPEN preserves rather than starts it. -/
theorem C1_witness :
    (isrTick pAllLims { s0 with m1 := { motor0 with dir := 1, timer := 50 } }).m1.dir ≠ OPEN ∧
    ({ s0 with m1 := { motor0 with dir := 1, timer := 50 } }).m1.dir = OPEN := by
  refine ⟨(C1_never_toward_reached_limit pAllLims 1 eAllLims _).1.1 rfl, ?_⟩
  decide

/-- Claim C10: a remote start command for the direction a motor is already
actuating does not stop it; it reloads the timeout countdown to the full
calibrated value and clears the channel's stopReason and failsafe
ownership, extending the permitted run time. -/
theorem C10_same_direction_restart (p : Pins) (s : Sys) :
    (s.m1.dir = OPEN → p.lim1open = false → (webCmd 1 p s).m1 =
      { s.m1 with dir := OPEN, timer := MAX_MOT1_OPEN, stopReason := 0, autoClosedByIP := false }) ∧
    (s.m1.dir = CLOSE → p.lim1closed = false → (webCmd 2 p s).m1 =
      { s.m1 with dir := CLOSE, timer := MAX_MOT1_CLOSE, stopReason := 0, autoClosedByIP := false }) ∧
    (s.m2.dir = OPEN → p.lim2open = false → (webCmd 3 p s).m2 =
      { s.m2 with dir := OPEN, timer := MAX_MOT2_OPEN, stopReason := 0, autoClosedByIP := false }) ∧
    (s.m2.dir = CLOSE → p.lim2closed = false → (webCmd 4 p s).m2 =
      { s.m2 with dir := CLOSE, timer := MAX_MOT2_CLOSE, stopReason := 0, autoClosedByIP := false }) := by
  refine ⟨fun h hl => ?_, fun h hl => ?_, fun h hl => ?_, fun h hl => ?_⟩ <;>
    (simp only [webCmd]; split_ifs <;> simp_all [OPEN, CLOSE])

/-- Witness for C10: a running close command on motor 1 (timer nearly
exhausted, a stale reason and failsafe ownership latched) is refreshed by
opcode 1 to the full countdown with reason and ownership cleared. -/
theorem C10_witness :
    (webCmd 1 pQuiet
        { s0 with m1 := { dir := 1, speed := 255, timer := 7, stopReason := 5, autoClosedByIP := true } }).m1 =
      { dir := 1, speed := 255, timer := 6527, stopReason := 0, autoClosedByIP := false } := by
  have h := (C10_same_direction_restart pQuiet
      { s0 with m1 := { dir := 1, speed := 255, timer := 7, stopReason := 5, autoClosedByIP := true } }).1
    (by decide) (by decide)
  simpa [OPEN, MAX_MOT1_OPEN] using h

/-- Claim C6 counterexample: issuing the remote stop opcode 5 to a state in
which motor channel 1 is already Idle (stopReason 1 from a button stop)
changes its stopReason to 2, so the stop is not a no-op as claimed. -/
theorem C6_counterexample :
    s6.m1.dir = 0 ∧ (webCmd 5 pQuiet s6).m1.dir = 0 ∧
    s6.m1.stopReason = 1 ∧ (webCmd 5 pQuiet s6).m1.stopReason = 2 := by decide

/-- Claim C6 (amended): the remote stop opcode 5 on an already-idle channel
leaves it idle but overwrites its stopReason with 2 (RemoteStop) and clears
failsafe ownership, with the other channel fields unchanged; the
emergency-stop input on a state with BOTH channels idle changes nothing
except latching the pressed flag. -/
theorem C6_amended_stop_on_idle (p : Pins) (s : Sys) :
    (s.m1.dir = 0 → (webCmd 5 p s).m1 = { s.m1 with stopReason := 2, autoClosedByIP := false }) ∧
    (s.m2.dir = 0 → (webCmd 5 p s).m2 = { s.m2 with stopReason := 2, autoClosedByIP := false }) ∧
    (s.m1.dir = 0 → s.m2.dir = 0 → p.swstop = false →
      isrEmergencyStop p s = { s with swstopFlag := true }) := by
  refine ⟨fun h => ?_, fun h => ?_, fun h1 h2 hp => ?_⟩
  · simp only [webCmd]
    norm_num
    cases hm : s.m1 with
    | mk d sp t r a => simp_all
  · simp only [webCmd]
    norm_num
    cases hm : s.m2 with
    | mk d sp t r a => simp_all
  · have hcond : ¬(s.m1.dir ≠ 0 ∨ s.m2.dir ≠ 0) := by simp [h1, h2]
    by_cases hf : s.swstopFlag = false
    · unfold isrEmergencyStop
      rw [if_pos hp, if_pos hf, if_neg hcond]
    · have hf2 : s.swstopFlag = true := by
        cases hb : s.swstopFlag
        · exact absurd hb hf
        · rfl
      unfold isrEmergencyStop
      rw [if_pos hp, if_neg hf]
      cases s
      simp_all

/-- Witness for C6 (amended) at a concrete input: both channels idle with
stale reasons; remote stop rewrites the reasons to 2, and the emergency
stop only latches its flag. -/
theorem C6_amended_witness :
    (webCmd 5 pQuiet s6).m1 = { s6.m1 with stopReason := 2, autoClosedByIP := false } ∧
    isrEmergencyStop { pQuiet with swstop := false } s6 = { s6 with swstopFlag := true } := by
  refine ⟨(C6_amended_stop_on_idle pQuiet s6).1 (by decide), ?_⟩
  exact (C6_amended_stop_on_idle { pQuiet with swstop := false } s6).2.2 (by decide) (by decide) (by decide)

/-- The debounce counter step does not touch the motor channels. -/
theorem isrDebounceTick_m1 (s : Sys) :
    (isrDebounceTick s).m1 = s.m1 ∧ (isrDebounceTick s).m2 = s.m2 := by
  simp only [isrDebounceTick]
  split_ifs <;> simp_all

/-- With the STOP pin reading HIGH, the emergency section only clears the
pending flag. -/
theorem isrEmergencyStop_quiet (p : Pins) (s : Sys) (hp : p.swstop = true) :
    isrEmergencyStop p s = { s with swstopFlag := false } := by
  unfold isrEmergencyStop
  rw [if_neg]
  simp [hp]

/-- With no motor 1 limit asserted, stop-reason management leaves motor 1
untouched. -/
theorem isrStopReasonClear_quiet1 (p : Pins) (s : Sys) (h1 : p.lim1open = false)
    (h2 : p.lim1closed = false) : (isrStopReasonClear p s).m1 = s.m1 := by
  simp only [isrStopReasonClear, h1, h2]
  split_ifs <;> simp_all

/-- With no motor 1 limit asserted, limit detection leaves motor 1 untouched. -/
theorem isrLimitStops_quiet1 (p : Pins) (s : Sys) (h1 : p.lim1open = false)
    (h2 : p.lim1closed = false) : (isrLimitStops p s).m1 = s.m1 := by
  unfold isrLimitStops
  have ha : limStop1open p s = s := by
    unfold limStop1open
    rw [if_neg]
    simp [h1]
  have hb : limStop1closed p s = s := by
    unfold limStop1closed
    rw [if_neg]
    simp [h2]
  rw [ha, hb, (limStop2closed_dir p (limStop2open p s)).1, (limStop2open_dir p s).1]

/-- A running motor 1 with a nonzero countdown just decrements its timer. -/
theorem isrTimeout_run1 (s : Sys) (h : s.m1.dir = OPEN) (ht : s.m1.timer ≠ 0) :
    (isrTimeout s).m1 = { s.m1 with timer := s.m1.timer - 1 } := by
  simp only [isrTimeout]
  split_ifs <;> simp_all [OPEN]

/-- A running motor 1 with an exhausted countdown and no latched failsafe
reason is idled with stopReason 5. -/
theorem isrTimeout_zero1 (s : Sys) (h : s.m1.dir = OPEN) (hr : s.m1.stopReason = 0)
    (ht : s.m1.timer = 0) :
    (isrTimeout s).m1 = { s.m1 with dir := 0, stopReason := 5, autoClosedByIP := false } := by
  simp only [isrTimeout]
  split_ifs <;> simp_all [OPEN]

/-- The PWM ramp changes only a motor's speed field. -/
theorem isrPwm_m1fields (s : Sys) :
    (isrPwm s).m1.dir = s.m1.dir ∧ (isrPwm s).m1.timer = s.m1.timer ∧
    (isrPwm s).m1.stopReason = s.m1.stopReason ∧
    (isrPwm s).m1.autoClosedByIP = s.m1.autoClosedByIP := by
  simp only [isrPwm]
  split_ifs <;> simp_all

/-- An unpressed button's block is the identity. -/
theorem buttonSW1up_skip (p : Pins) (s : Sys) (h : p.sw1up = true) : buttonSW1up p s = s := by
  unfold buttonSW1up
  rw [if_neg]
  simp [h]

/-- An unpressed button's block is the identity (SW1down). -/
theorem buttonSW1down_skip (p : Pins) (s : Sys) (h : p.sw1down = true) : buttonSW1down p s = s := by
  unfold buttonSW1down
  rw [if_neg]
  simp [h]

/-- An unpressed button's block is the identity (SW2up). -/
theorem buttonSW2up_skip (p : Pins) (s : Sys) (h : p.sw2up = true) : buttonSW2up p s = s := by
  unfold buttonSW2up
  rw [if_neg]
  simp [h]

/-- An unpressed button's block is the identity (SW2down). -/
theorem buttonSW2down_skip (p : Pins) (s : Sys) (h : p.sw2down = true) : buttonSW2down p s = s := by
  unfold buttonSW2down
  rw [if_neg]
  simp [h]

/-- With every button reading HIGH, the button section is the identity. -/
theorem isrButtons_quiet (p : Pins) (s : Sys) (h1 : p.sw1up = true) (h2 : p.sw1down = true)
    (h3 : p.sw2up = true) (h4 : p.sw2down = true) : isrButtons p s = s := by
  unfold isrButtons
  rw [buttonSW1up_skip p s h1, buttonSW1down_skip p s h2, buttonSW2up_skip p s h3,
    buttonSW2down_skip p s h4]

/-- One quiet tick of a running close command: the direction, reason and the
decremented countdown. -/
theorem isrTick_quiet_run (s : Sys) (h : s.m1.dir = OPEN) (hr : s.m1.stopReason = 0)
    (ht : s.m1.timer ≠ 0) :
    (isrTick pQuiet s).m1.dir = OPEN ∧ (isrTick pQuiet s).m1.timer = s.m1.timer - 1 ∧
    (isrTick pQuiet s).m1.stopReason = 0 := by
  unfold isrTick
  generalize ha : isrDebounceTick s = a
  generalize hb : isrEmergencyStop pQuiet a = b
  generalize hc : isrStopReasonClear pQuiet b = c
  generalize hd : isrLimitStops pQuiet c = d
  generalize he : isrTimeout d = f
  generalize hf : isrPwm f = g
  generalize hg : isrButtons pQuiet g = g9
  generalize hh : isrButtonRelease pQuiet g9 = i
  generalize hi : isrRecorder1 pQuiet i = j
  have hma : a.m1 = s.m1 := by rw [← ha]; exact (isrDebounceTick_m1 s).1
  have hmb : b.m1 = s.m1 := by
    rw [← hb, isrEmergencyStop_quiet pQuiet a rfl]; exact hma
  have hmc : c.m1 = s.m1 := by
    rw [← hc, isrStopReasonClear_quiet1 pQuiet b rfl rfl]; exact hmb
  have hmd : d.m1 = s.m1 := by
    rw [← hd, isrLimitStops_quiet1 pQuiet c rfl rfl]; exact hmc
  have hmf : f.m1 = { s.m1 with timer := s.m1.timer - 1 } := by
    rw [← he, isrTimeout_run1 d (by rw [hmd]; exact h) (by rw [hmd]; exact ht), hmd]
  have hmg : g.m1.dir = OPEN ∧ g.m1.timer = s.m1.timer - 1 ∧ g.m1.stopReason = 0 := by
    have hp := isrPwm_m1fields f
    rw [hf] at hp
    refine ⟨?_, ?_, ?_⟩
    · rw [hp.1, hmf]; exact h
    · rw [hp.2.1, hmf]
    · rw [hp.2.2.1, hmf]; exact hr
  have hbq : g9 = g := by rw [← hg, isrButtons_quiet pQuiet g rfl rfl rfl rfl]
  have hmi : i.m1 = g.m1 := by
    rw [← hh, hbq]; exact (isrButtonRelease_m pQuiet g).1
  have hmj : j.m1 = g.m1 := by
    rw [← hi, (isrRecorder_m pQuiet i).1.1, hmi]
  have hmk := (isrRecorder_m pQuiet j).2.1
  rw [hmk, hmj]
  exact hmg

/-- One quiet tick of a running close command with exhausted countdown idles
the motor with stopReason 5. -/
theorem isrTick_quiet_timeout (s : Sys) (h : s.m1.dir = OPEN) (hr : s.m1.stopReason = 0)
    (ht : s.m1.timer = 0) :
    (isrTick pQuiet s).m1.dir = 0 ∧ (isrTick pQuiet s).m1.stopReason = 5 := by
  unfold isrTick
  generalize ha : isrDebounceTick s = a
  generalize hb : isrEmergencyStop pQuiet a = b
  generalize hc : isrStopReasonClear pQuiet b = c
  generalize hd : isrLimitStops pQuiet c = d
  generalize he : isrTimeout d = f
  generalize hf : isrPwm f = g
  generalize hg : isrButtons pQuiet g = g9
  generalize hh : isrButtonRelease pQuiet g9 = i
  generalize hi : isrRecorder1 pQuiet i = j
  have hma : a.m1 = s.m1 := by rw [← ha]; exact (isrDebounceTick_m1 s).1
  have hmb : b.m1 = s.m1 := by
    rw [← hb, isrEmergencyStop_quiet pQuiet a rfl]; exact hma
  have hmc : c.m1 = s.m1 := by
    rw [← hc, isrStopReasonClear_quiet1 pQuiet b rfl rfl]; exact hmb
  have hmd : d.m1 = s.m1 := by
    rw [← hd, isrLimitStops_quiet1 pQuiet c rfl rfl]; exact hmc
  have hmf : f.m1 = { s.m1 with dir := 0, stopReason := 5, autoClosedByIP := false } := by
    rw [← he, isrTimeout_zero1 d (by rw [hmd]; exact h) (by rw [hmd]; exact hr)
      (by rw [hmd]; exact ht), hmd]
  have hmg : g.m1.dir = 0 ∧ g.m1.stopReason = 5 := by
    have hp := isrPwm_m1fields f
    rw [hf] at hp
    constructor
    · rw [hp.1, hmf]
    · rw [hp.2.2.1, hmf]
  have hbq : g9 = g := by rw [← hg, isrButtons_quiet pQuiet g rfl rfl rfl rfl]
  have hmi : i.m1 = g.m1 := by
    rw [← hh, hbq]; exact (isrButtonRelease_m pQuiet g).1
  have hmj : j.m1 = g.m1 := by
    rw [← hi, (isrRecorder_m pQuiet i).1.1, hmi]
  have hmk := (isrRecorder_m pQuiet j).2.1
  rw [hmk, hmj]
  exact hmg

/-- Countdown invariant: through k quiet ticks (k at most the loaded timer),
motor 1 keeps running with the timer decreased by k. -/
theorem timeout_countdown :
    ∀ (k : Nat) (s : Sys), s.m1.dir = OPEN → s.m1.stopReason = 0 → k ≤ s.m1.timer →
    ((isrTick pQuiet)^[k] s).m1.dir = OPEN ∧
    ((isrTick pQuiet)^[k] s).m1.timer = s.m1.timer - k ∧
    ((isrTick pQuiet)^[k] s).m1.stopReason = 0 := by
  intro k
  induction k with
  | zero =>
    intro s h hr _
    exact ⟨h, by simp, hr⟩
  | succ n ih =>
    intro s h hr hk
    rw [Function.iterate_succ_apply]
    have ht : s.m1.timer ≠ 0 := by omega
    have hstep := isrTick_quiet_run s h hr ht
    have hrec := ih (isrTick pQuiet s) hstep.1 hstep.2.2 (by omega)
    refine ⟨hrec.1, ?_, hrec.2.2⟩
    rw [hrec.2.1, hstep.2.1]
    omega

/-- Claim C7 counterexample: motor 1 started by the remote close command with
the calibrated countdown N = MAX_MOT1_OPEN = 6527 and the boundary never
reached is still actuating after N quiet ticks, so the Nth tick does not
idle it (the claim asserts the Nth tick sets it Idle). -/
theorem C7_counterexample :
    s7.m1.timer = MAX_MOT1_OPEN ∧
    ((isrTick pQuiet)^[MAX_MOT1_OPEN] s7).m1.dir ≠ 0 := by
  constructor
  · decide
  · have hc := timeout_countdown MAX_MOT1_OPEN s7 (by decide) (by decide) (by decide)
    rw [hc.1]
    decide

/-- Claim C7 (amended): a motor started with its countdown loaded to N whose
target boundary is never reached is still actuating after N ticks (with
the countdown exhausted), and the (N+1)th tick idles it with
stopReason = Timeout (5). -/
theorem C7_amended_timeout (s : Sys) (n : Nat) (h : s.m1.dir = OPEN)
    (hr : s.m1.stopReason = 0) (ht : s.m1.timer = n) :
    ((isrTick pQuiet)^[n] s).m1.dir = OPEN ∧
    ((isrTick pQuiet)^[n + 1] s).m1.dir = 0 ∧
    ((isrTick pQuiet)^[n + 1] s).m1.stopReason = 5 := by
  have hc := timeout_countdown n s h hr (by omega)
  have h0 : ((isrTick pQuiet)^[n] s).m1.timer = 0 := by rw [hc.2.1]; omega
  have hfin := isrTick_quiet_timeout _ hc.1 hc.2.2 h0
  refine ⟨hc.1, ?_, ?_⟩
  · rw [Function.iterate_succ_apply']
    exact hfin.1
  · rw [Function.iterate_succ_apply']
    exact hfin.2

/-- Witness for C7 (amended) at a small concrete countdown: timer loaded to 3;
after 3 quiet ticks the motor still runs, the 4th idles it with reason 5. -/
theorem C7_amended_witness :
    ((isrTick pQuiet)^[3] { s0 with m1 := { motor0 with dir := 1, timer := 3 } }).m1.dir = OPEN ∧
    ((isrTick pQuiet)^[4] { s0 with m1 := { motor0 with dir := 1, timer := 3 } }).m1.dir = 0 ∧
    ((isrTick pQuiet)^[4] { s0 with m1 := { motor0 with dir := 1, timer := 3 } }).m1.stopReason = 5 :=
  C7_amended_timeout { s0 with m1 := { motor0 with dir := 1, timer := 3 } } 3
    (by decide) (by decide) (by decide)

/-- Each recorder sub-step leaves the button press flags untouched. -/
theorem recSteps_flags (p : Pins) (s : Sys) :
    ((recStart1 p s).sw1upFlag = s.sw1upFlag) ∧ ((recCount1 s).sw1upFlag = s.sw1upFlag) ∧
    ((recStop1 p s).sw1upFlag = s.sw1upFlag) ∧ ((recStart2 p s).sw1upFlag = s.sw1upFlag) ∧
    ((recCount2 s).sw1upFlag = s.sw1upFlag) ∧ ((recStop2 p s).sw1upFlag = s.sw1upFlag) := by
  refine ⟨?_, ?_, ?_, ?_, ?_, ?_⟩ <;>
    first
    | (simp only [recStart1]; split_ifs <;> rfl)
    | (simp only [recCount1]; split_ifs <;> rfl)
    | (simp only [recStop1]; split_ifs <;> rfl)
    | (simp only [recStart2]; split_ifs <;> rfl)
    | (simp only [recCount2]; split_ifs <;> rfl)
    | (simp only [recStop2]; split_ifs <;> rfl)

/-- The tick recorders leave the SW1up press flag untouched. -/
theorem isrRecorder_sw1upFlag (p : Pins) (s : Sys) :
    ((isrRecorder1 p s).sw1upFlag = s.sw1upFlag) ∧
    ((isrRecorder2 p s).sw1upFlag = s.sw1upFlag) := by
  constructor
  · unfold isrRecorder1
    show (recStop1 p (recCount1 (recStart1 p s))).sw1upFlag = s.sw1upFlag
    rw [(recSteps_flags p (recCount1 (recStart1 p s))).2.2.1,
      (recSteps_flags p (recStart1 p s)).2.1, (recSteps_flags p s).1]
  · unfold isrRecorder2
    show (recStop2 p (recCount2 (recStart2 p s))).sw1upFlag = s.sw1upFlag
    rw [(recSteps_flags p (recCount2 (recStart2 p s))).2.2.2.2.2,
      (recSteps_flags p (recStart2 p s)).2.2.2.2.1, (recSteps_flags p s).2.2.2.1]

/-- With SW1up reading HIGH, the release section ends with its flag clear. -/
theorem isrButtonRelease_sw1up (p : Pins) (s : Sys) (h : p.sw1up = true) :
    (isrButtonRelease p s).sw1upFlag = false := by
  simp only [isrButtonRelease, h]
  split_ifs <;> simp_all

/-- Claim C8 counterexample: starting from the baseline state, the SW1up
input reads de-asserted for 10 ticks and then asserted for a single tick;
that first asserted tick already starts motor 1, so a direction button
does not need 7 consecutive ticks of the asserted level to act. -/
theorem C8_counterexample :
    ((isrTick pQuiet)^[10] s0).m1.dir = 0 ∧
    ((isrTick pQuiet)^[10] s0).sw1upFlag = false ∧
    (isrTick pSW1up ((isrTick pQuiet)^[10] s0)).m1.dir = OPEN := by decide

/-- Claim C8 (amended): a direction button acts on an asserted tick exactly
when at least 7 ticks have elapsed since the last button action (the
shared lockout counter cnt exceeds 6) and its press flag is clear; with
cnt at most 6 the whole button section is a no-op; a set press flag makes
the block a no-op; the flag clears on the first de-asserted tick; and the
emergency-stop input is exempt, acting on its first asserted tick. -/
theorem C8_amended_debounce (p : Pins) (s : Sys) :
    (s.cnt ≤ 6 → isrButtons p s = s) ∧
    (p.sw1up = false → s.cnt > 6 → s.sw1upFlag = false → s.m1.dir = 0 → p.lim1open = false →
      (isrButtons p s).m1.dir = OPEN ∧ (isrButtons p s).sw1upFlag = true ∧
      (isrButtons p s).cnt = 0) ∧
    (s.sw1upFlag = true → buttonSW1up p s = s) ∧
    (p.sw1up = true → (isrTick p s).sw1upFlag = false) ∧
    (p.swstop = false → s.swstopFlag = false → s.m1.dir ≠ 0 →
      (isrEmergencyStop p s).m1.dir = 0 ∧ (isrEmergencyStop p s).m1.stopReason = 1) := by
  refine ⟨fun h => ?_, fun h1 h2 h3 h4 h5 => ?_, fun h => ?_, fun h => ?_, fun h1 h2 h3 => ?_⟩
  · have hn : ¬s.cnt > 6 := by omega
    unfold isrButtons
    have b1 : buttonSW1up p s = s := by
      unfold buttonSW1up
      rw [if_neg]
      simp [hn]
    have b2 : buttonSW1down p s = s := by
      unfold buttonSW1down
      rw [if_neg]
      simp [hn]
    have b3 : buttonSW2up p s = s := by
      unfold buttonSW2up
      rw [if_neg]
      simp [hn]
    have b4 : buttonSW2down p s = s := by
      unfold buttonSW2down
      rw [if_neg]
      simp [hn]
    rw [b1, b2, b3, b4]
  · have hfire : buttonSW1up p s =
        { s with sw1upFlag := true, cnt := 0, m1 := Motor.mk OPEN s.m1.speed MAX_MOT1_OPEN 0 false } := by
      unfold buttonSW1up
      rw [if_pos ⟨h1, h2, h3⟩]
      rw [if_neg (by simp [h4]), if_pos h5]
    unfold isrButtons
    rw [hfire]
    have b2 : ∀ t : Sys, t.cnt = 0 → buttonSW1down p t = t := by
      intro t htc
      unfold buttonSW1down
      rw [if_neg]
      simp [htc]
    have b3 : ∀ t : Sys, t.cnt = 0 → buttonSW2up p t = t := by
      intro t htc
      unfold buttonSW2up
      rw [if_neg]
      simp [htc]
    have b4 : ∀ t : Sys, t.cnt = 0 → buttonSW2down p t = t := by
      intro t htc
      unfold buttonSW2down
      rw [if_neg]
      simp [htc]
    rw [b2 _ rfl, b3 _ rfl, b4 _ rfl]
    exact ⟨rfl, rfl, rfl⟩
  · unfold buttonSW1up
    rw [if_neg]
    simp [h]
  · unfold isrTick
    generalize hg : isrButtons p (isrPwm (isrTimeout (isrLimitStops p
      (isrStopReasonClear p (isrEmergencyStop p (isrDebounceTick s)))))) = g
    generalize hh : isrButtonRelease p g = i
    generalize hi : isrRecorder1 p i = j
    have hrel : i.sw1upFlag = false := by
      rw [← hh]
      exact isrButtonRelease_sw1up p g h
    have hr1 : j.sw1upFlag = false := by
      rw [← hi, (isrRecorder_sw1upFlag p i).1, hrel]
    rw [(isrRecorder_sw1upFlag p j).2, hr1]
  · unfold isrEmergencyStop
    rw [if_pos h1, if_pos h2, if_pos (Or.inl h3)]
    constructor <;> rfl

/-- Witness for C8 (amended) at concrete inputs: the lockout no-op at cnt 0,
an immediate button action at saturated cnt, the block no-op under a set
press flag, the flag clearing on a de-asserted tick, and the undebounced
emergency stop. -/
theorem C8_amended_witness :
    isrButtons pSW1up s0 = s0 ∧
    (isrButtons pSW1up { s0 with cnt := 100 }).m1.dir = OPEN ∧
    buttonSW1up pSW1up { s0 with cnt := 100, sw1upFlag := true } =
      { s0 with cnt := 100, sw1upFlag := true } ∧
    (isrTick pQuiet { s0 with sw1upFlag := true }).sw1upFlag = false ∧
    (isrEmergencyStop { pQuiet with swstop := false }
      { s0 with m1 := { motor0 with dir := 1 } }).m1.dir = 0 := by
  refine ⟨?_, ?_, ?_, ?_, ?_⟩
  · exact (C8_amended_debounce pSW1up s0).1 (by decide)
  · exact ((C8_amended_debounce pSW1up { s0 with cnt := 100 }).2.1
      (by decide) (by decide) (by decide) (by decide) (by decide)).1
  · exact (C8_amended_debounce pSW1up { s0 with cnt := 100, sw1upFlag := true }).2.2.1 (by decide)
  · exact (C8_amended_debounce pQuiet { s0 with sw1upFlag := true }).2.2.2.1 (by decide)
  · exact ((C8_amended_debounce { pQuiet with swstop := false }
      { s0 with m1 := { motor0 with dir := 1 } }).2.2.2.2 (by decide) (by decide) (by decide)).1

/-- The run can only become active in the start-detection step, and only on a
stopped-to-running edge with a limit asserted. -/
theorem recStart1_activates (p : Pins) (s : Sys) :
    (recStart1 p s).r1.fullRunActive = true →
    s.r1.fullRunActive = true ∨
      (s.m1.dir ≠ 0 ∧ s.r1.prevDir = 0 ∧ (p.lim1closed = true ∨ p.lim1open = true)) := by
  simp only [recStart1]
  split_ifs <;> simp_all

/-- The counting step only changes the tick counter. -/
theorem recCount1_fields (s : Sys) :
    (recCount1 s).r1.fullRunActive = s.r1.fullRunActive ∧
    (recCount1 s).r1.prevDir = s.r1.prevDir ∧
    (recCount1 s).r1.dataReady = s.r1.dataReady ∧
    (recCount1 s).r1.interruptReady = s.r1.interruptReady := by
  simp only [recCount1]
  split_ifs <;> simp_all

/-- The stop-detection step never activates a run. -/
theorem recStop1_active (p : Pins) (s : Sys) :
    (recStop1 p s).r1.fullRunActive = true → s.r1.fullRunActive = true := by
  simp only [recStop1]
  split_ifs <;> simp_all

/-- Claim C9: runtime tick recorder of motor 1.  A run becomes active only
when the motor started while a limit was asserted; a mid-travel start
leaves the run inactive and queues nothing, and a stop of an inactive run
queues nothing; on the stop edge of an active run exactly one record is
emitted with the counted ticks - valid when the motor sits at the limit
matching its direction of travel (the boundary opposite to a guarded
start), interrupted otherwise, whatever mechanism stopped the motor. -/
theorem C9_run_records (p : Pins) (s : Sys) :
    (s.r1.fullRunActive = false → (isrRecorder1 p s).r1.fullRunActive = true →
      s.m1.dir ≠ 0 ∧ s.r1.prevDir = 0 ∧ (p.lim1closed = true ∨ p.lim1open = true)) ∧
    (s.m1.dir ≠ 0 → s.r1.prevDir = 0 → p.lim1closed = false → p.lim1open = false →
      (isrRecorder1 p s).r1.fullRunActive = false ∧
      (isrRecorder1 p s).r1.dataReady = s.r1.dataReady ∧
      (isrRecorder1 p s).r1.interruptReady = s.r1.interruptReady) ∧
    (s.m1.dir = 0 → s.r1.fullRunActive = false →
      (isrRecorder1 p s).r1.dataReady = s.r1.dataReady ∧
      (isrRecorder1 p s).r1.interruptReady = s.r1.interruptReady) ∧
    (s.m1.dir = 0 → s.r1.prevDir ≠ 0 → s.r1.fullRunActive = true →
      (isrRecorder1 p s).r1.fullRunActive = false ∧
      ((s.r1.wasClosing = true ∧ p.lim1open = true) →
        (isrRecorder1 p s).r1.dataReady = true ∧
        (isrRecorder1 p s).r1.interruptReady = s.r1.interruptReady ∧
        (isrRecorder1 p s).r1.lastTicksClosing = s.r1.tickCounter ∧
        (isrRecorder1 p s).r1.lastDirection = 1) ∧
      ((s.r1.wasClosing = false ∧ p.lim1closed = true) →
        (isrRecorder1 p s).r1.dataReady = true ∧
        (isrRecorder1 p s).r1.interruptReady = s.r1.interruptReady ∧
        (isrRecorder1 p s).r1.lastTicksOpening = s.r1.tickCounter ∧
        (isrRecorder1 p s).r1.lastDirection = 2) ∧
      (¬((s.r1.wasClosing = true ∧ p.lim1open = true) ∨
         (s.r1.wasClosing = false ∧ p.lim1closed = true)) →
        (isrRecorder1 p s).r1.interruptReady = true ∧
        (isrRecorder1 p s).r1.dataReady = s.r1.dataReady ∧
        (isrRecorder1 p s).r1.interruptTicks = s.r1.tickCounter)) := by
  have hproj : ∀ x : Sys, (isrRecorder1 p x).r1.fullRunActive =
      (recStop1 p (recCount1 (recStart1 p x))).r1.fullRunActive ∧
      (isrRecorder1 p x).r1.dataReady =
        (recStop1 p (recCount1 (recStart1 p x))).r1.dataReady ∧
      (isrRecorder1 p x).r1.interruptReady =
        (recStop1 p (recCount1 (recStart1 p x))).r1.interruptReady ∧
      (isrRecorder1 p x).r1.lastTicksClosing =
        (recStop1 p (recCount1 (recStart1 p x))).r1.lastTicksClosing ∧
      (isrRecorder1 p x).r1.lastTicksOpening =
        (recStop1 p (recCount1 (recStart1 p x))).r1.lastTicksOpening ∧
      (isrRecorder1 p x).r1.lastDirection =
        (recStop1 p (recCount1 (recStart1 p x))).r1.lastDirection ∧
      (isrRecorder1 p x).r1.interruptTicks =
        (recStop1 p (recCount1 (recStart1 p x))).r1.interruptTicks :=
    fun x => ⟨rfl, rfl, rfl, rfl, rfl, rfl, rfl⟩
  refine ⟨fun hact hres => ?_, fun h1 h2 h3 h4 => ?_, fun h1 h2 => ?_, fun h1 h2 h3 => ?_⟩
  · rw [(hproj s).1] at hres
    have h4 := recStop1_active p _ hres
    rw [(recCount1_fields (recStart1 p s)).1] at h4
    rcases recStart1_activates p s h4 with h5 | h5
    · simp [hact] at h5
    · exact h5
  · have ha : recStart1 p s = { s with r1 := { s.r1 with fullRunActive := false } } := by
      unfold recStart1
      rw [if_pos ⟨h1, h2⟩, if_neg]
      simp [h3, h4]
    have hb : recCount1 ({ s with r1 := { s.r1 with fullRunActive := false } } : Sys) =
        { s with r1 := { s.r1 with fullRunActive := false } } := by
      unfold recCount1
      rw [if_neg]
      simp
    have hc : recStop1 p ({ s with r1 := { s.r1 with fullRunActive := false } } : Sys) =
        { s with r1 := { s.r1 with fullRunActive := false } } := by
      unfold recStop1
      rw [if_neg]
      simp [h1]
    refine ⟨?_, ?_, ?_⟩
    · rw [(hproj s).1, ha, hb, hc]
    · rw [(hproj s).2.1, ha, hb, hc]
    · rw [(hproj s).2.2.1, ha, hb, hc]
  · have ha : recStart1 p s = s := by
      unfold recStart1
      rw [if_neg]
      simp [h1]
    have hb : recCount1 s = s := by
      unfold recCount1
      rw [if_neg]
      simp [h1]
    have hc : (recStop1 p s).r1.dataReady = s.r1.dataReady ∧
        (recStop1 p s).r1.interruptReady = s.r1.interruptReady := by
      unfold recStop1
      split_ifs <;> simp_all
    exact ⟨by rw [(hproj s).2.1, ha, hb]; exact hc.1,
      by rw [(hproj s).2.2.1, ha, hb]; exact hc.2⟩
  · have ha : recStart1 p s = s := by
      unfold recStart1
      rw [if_neg]
      simp [h1]
    have hb : recCount1 s = s := by
      unfold recCount1
      rw [if_neg]
      simp [h1]
    have hstop : recStop1 p s =
        (let t :=
          if s.r1.wasClosing = true ∧ p.lim1open = true then
            { s with r1 := { s.r1 with lastTicksClosing := s.r1.tickCounter, lastDirection := 1, dataReady := true } }
          else if s.r1.wasClosing = false ∧ p.lim1closed = true then
            { s with r1 := { s.r1 with lastTicksOpening := s.r1.tickCounter, lastDirection := 2, dataReady := true } }
          else
            let d := if s.r1.wasClosing = true then 1 else 2
            { s with r1 := { s.r1 with interruptTicks := s.r1.tickCounter, interruptDirection := d, interruptReady := true } }
        { t with r1 := { t.r1 with fullRunActive := false } }) := by
      unfold recStop1
      rw [if_pos ⟨h1, h2⟩, if_pos h3]
    refine ⟨?_, fun hv => ?_, fun hv => ?_, fun hv => ?_⟩
    · rw [(hproj s).1, ha, hb, hstop]
    · rw [(hproj s).2.1, (hproj s).2.2.1, (hproj s).2.2.2.1, (hproj s).2.2.2.2.2.1, ha, hb, hstop]
      rw [if_pos hv]
      exact ⟨rfl, rfl, rfl, rfl⟩
    · rw [(hproj s).2.1, (hproj s).2.2.1, (hproj s).2.2.2.2.1, (hproj s).2.2.2.2.2.1, ha, hb, hstop]
      rw [if_neg (by simp [hv.1]), if_pos hv]
      exact ⟨rfl, rfl, rfl, rfl⟩
    · rw [(hproj s).2.1, (hproj s).2.2.1, (hproj s).2.2.2.2.2.2, ha, hb, hstop]
      rw [if_neg (fun hc => hv (Or.inl hc)), if_neg (fun hc => hv (Or.inr hc))]
      exact ⟨rfl, rfl, rfl⟩

/-- Witness for C9 at a concrete stop edge: motor 1 just stopped at the
closed limit after an active closing run of 42 counted ticks; exactly the
valid record is emitted and the run deactivates; and a mid-travel start
leaves the recorder inactive. -/
theorem C9_witness :
    ((isrRecorder1 pAllLims
        { s0 with r1 := { rec0 with fullRunActive := true, wasClosing := true,
                                    prevDir := 1, tickCounter := 42 } }).r1.dataReady = true ∧
      (isrRecorder1 pAllLims
        { s0 with r1 := { rec0 with fullRunActive := true, wasClosing := true,
                                    prevDir := 1, tickCounter := 42 } }).r1.lastTicksClosing = 42) ∧
    (isrRecorder1 pQuiet { s0 with m1 := { motor0 with dir := 1 } }).r1.fullRunActive = false := by
  constructor
  · have h := (C9_run_records pAllLims
      { s0 with r1 := { rec0 with fullRunActive := true, wasClosing := true,
                                  prevDir := 1, tickCounter := 42 } }).2.2.2
      (by decide) (by decide) (by decide)
    have h2 := h.2.1 (by decide)
    exact ⟨h2.1, h2.2.2.1⟩
  · exact ((C9_run_records pQuiet { s0 with m1 := { motor0 with dir := 1 } }).2.1
      (by decide) (by decide) (by decide) (by decide)).1

/-- Durable-store writes do not touch the cable flag. -/
theorem saveCounters_cableTrig (n : Nat) (s : Sys) :
    (saveCountersToEEPROM n s).cableRemovalTriggered = s.cableRemovalTriggered := by
  simp only [saveCountersToEEPROM]
  split_ifs <;> rfl

/-- The auto-close action block does not touch the cable flag. -/
theorem autoCloseMotors_cableTrig (e : NetEnv) (s : Sys) :
    (autoCloseMotors e s).cableRemovalTriggered = s.cableRemovalTriggered := by
  simp only [autoCloseMotors, saveCountersToEEPROM]
  split_ifs <;> rfl

/-- The windowed trigger does not touch the cable flag. -/
theorem autoCloseTrigger_cableTrig (e : NetEnv) (s : Sys) :
    (autoCloseTrigger e s).cableRemovalTriggered = s.cableRemovalTriggered := by
  simp only [autoCloseTrigger]
  split_ifs with h
  · show (autoCloseMotors e s).cableRemovalTriggered = _
    exact autoCloseMotors_cableTrig e s
  · rfl

/-- None of the recovery or probe handling steps touches the cable flag. -/
theorem probeSteps_cableTrig (e : NetEnv) (b : Bool) (n : Nat) (s : Sys) :
    ((ethAutoRecovery e s).cableRemovalTriggered = s.cableRemovalTriggered) ∧
    ((ipRecovery e s).cableRemovalTriggered = s.cableRemovalTriggered) ∧
    ((probeSuccess s).cableRemovalTriggered = s.cableRemovalTriggered) ∧
    ((probeFailure n s).cableRemovalTriggered = s.cableRemovalTriggered) ∧
    ((probeAttempt e b s).cableRemovalTriggered = s.cableRemovalTriggered) := by
  refine ⟨?_, ?_, ?_, ?_, ?_⟩
  · simp only [ethAutoRecovery]
    split_ifs <;> rfl
  · simp only [ipRecovery]
    split_ifs <;> rfl
  · simp only [probeSuccess]
    split_ifs <;> rfl
  · simp only [probeFailure]
    split_ifs <;> rfl
  · simp only [probeAttempt, probeSuccess, probeFailure]
    split_ifs <;> rfl

/-- The whole link-up path leaves the cable flag as cableBackReset left it. -/
theorem cableTrig_linkUpPath (e : NetEnv) (s : Sys) :
    (autoCloseTrigger e (linkUpProbe e s)).cableRemovalTriggered =
      (cableBackReset e s).cableRemovalTriggered := by
  rw [autoCloseTrigger_cableTrig]
  unfold linkUpProbe
  rw [(probeSteps_cableTrig e (!s.ethInit) e.now
    (ipRecovery e (ethAutoRecovery e (cableBackReset e s)))).2.2.2.2]
  rw [(probeSteps_cableTrig e (!s.ethInit) e.now (ethAutoRecovery e (cableBackReset e s))).2.1]
  rw [(probeSteps_cableTrig e (!s.ethInit) e.now (cableBackReset e s)).1]

/-- cableBackReset clears the flag only when the link reads on. -/
theorem cableBackReset_flag (e : NetEnv) (s : Sys) :
    (cableBackReset e s).cableRemovalTriggered = false →
    s.cableRemovalTriggered = false ∨ e.link = LinkSt.on := by
  simp only [cableBackReset]
  split_ifs with h
  · intro _
    exact Or.inr h.1
  · intro h2
    exact Or.inl h2

/-- Field characterization of the auto-close action block: each motor not
already driving toward OPEN and not at its closed limit is commanded with
ownership and reason 3; the others are untouched; the lifetime counter
increments exactly once when some action was taken; the probe counters are
untouched. -/
theorem autoCloseMotors_m1 (e : NetEnv) (s : Sys) :
    (s.m1.dir ≠ OPEN → e.lim1open = false → (autoCloseMotors e s).m1 =
      { s.m1 with dir := OPEN, timer := MAX_MOT1_OPEN, autoClosedByIP := true, stopReason := 3 }) ∧
    (s.m1.dir = OPEN ∨ e.lim1open = true → (autoCloseMotors e s).m1 = s.m1) ∧
    (s.m2.dir ≠ OPEN → e.lim2open = false → (autoCloseMotors e s).m2 =
      { s.m2 with dir := OPEN, timer := MAX_MOT2_OPEN, autoClosedByIP := true, stopReason := 3 }) ∧
    (s.m2.dir = OPEN ∨ e.lim2open = true → (autoCloseMotors e s).m2 = s.m2) ∧
    ((autoCloseMotors e s).totalAutoCloses = s.totalAutoCloses + 1 ↔
      ((s.m1.dir ≠ OPEN ∧ e.lim1open = false) ∨ (s.m2.dir ≠ OPEN ∧ e.lim2open = false))) ∧
    (autoCloseMotors e s).totalIpFailures = s.totalIpFailures := by
  simp only [autoCloseMotors, saveCountersToEEPROM]
  split_ifs <;>
    first
    | (simp_all; done)
    | (simp_all; omega)
    | omega

/-- Claim C3 counterexample: cable removed while motor 1 is closing
mid-travel under an operator command and motor 2 sits at its closed
boundary.  Motor 1 is not at its closed boundary, yet it is not marked
failsafe-owned and no NetworkFailsafe reason is latched, and
totalAutoCloses does not increment, although the claim requires both. -/
theorem C3_counterexample :
    eC3.lim1open = false ∧ sC3.m1.dir = OPEN ∧
    (checkRemoteConnectionAndAutoClose eC3 sC3).cableRemovalTriggered = true ∧
    (checkRemoteConnectionAndAutoClose eC3 sC3).m1.autoClosedByIP = false ∧
    (checkRemoteConnectionAndAutoClose eC3 sC3).m1.stopReason ≠ 3 ∧
    (checkRemoteConnectionAndAutoClose eC3 sC3).totalAutoCloses = sC3.totalAutoCloses := by
  decide

/-- Claim C3 (amended): on the first supervisory check with the link absent,
the dome not fully closed and the removal not yet handled, every motor
neither already commanded toward OPEN nor at its closed boundary is
started closing with ownership and stopReason 3; a motor already closing
continues unchanged (keeping its prior ownership); totalAutoCloses
increments exactly once iff some motor was newly started; the handled flag
is set; while the cable stays out the whole check is a no-op; and the flag
is cleared only when the link reads on. -/
theorem C3_amended_cable_removal (e : NetEnv) (s : Sys)
    (hm : s.networkMonitoringEnabled = true) (hlink : e.link = LinkSt.off)
    (hflag : s.cableRemovalTriggered = false) (hlim1 : e.lim1open = false) :
    ((checkRemoteConnectionAndAutoClose e s).cableRemovalTriggered = true) ∧
    (s.m1.dir ≠ OPEN → (checkRemoteConnectionAndAutoClose e s).m1 =
      { s.m1 with dir := OPEN, timer := MAX_MOT1_OPEN, autoClosedByIP := true, stopReason := 3 }) ∧
    (s.m1.dir = OPEN → (checkRemoteConnectionAndAutoClose e s).m1 = s.m1) ∧
    (s.m2.dir ≠ OPEN → e.lim2open = false → (checkRemoteConnectionAndAutoClose e s).m2 =
      { s.m2 with dir := OPEN, timer := MAX_MOT2_OPEN, autoClosedByIP := true, stopReason := 3 }) ∧
    (s.m2.dir = OPEN ∨ e.lim2open = true →
      (checkRemoteConnectionAndAutoClose e s).m2 = s.m2) ∧
    ((checkRemoteConnectionAndAutoClose e s).totalAutoCloses = s.totalAutoCloses + 1 ↔
      (s.m1.dir ≠ OPEN ∨ (s.m2.dir ≠ OPEN ∧ e.lim2open = false))) ∧
    (∀ (e2 : NetEnv) (s2 : Sys), e2.link = LinkSt.off → s2.cableRemovalTriggered = true →
      ((e2.lim1open = false ∨ e2.lim2open = false) ∨
        (s2.m1.dir = CLOSE ∨ s2.m2.dir = CLOSE)) →
      checkRemoteConnectionAndAutoClose e2 s2 = s2) ∧
    (∀ (e2 : NetEnv) (s2 : Sys),
      (checkRemoteConnectionAndAutoClose e2 s2).cableRemovalTriggered = false →
      s2.cableRemovalTriggered = false ∨ e2.link = LinkSt.on) := by
  have hpath : checkRemoteConnectionAndAutoClose e s =
      { autoCloseMotors e s with cableRemovalTriggered := true } := by
    simp only [checkRemoteConnectionAndAutoClose]
    rw [if_neg (by simp [hm]), if_pos (Or.inl (Or.inl hlim1)), if_pos hlink, if_pos hflag]
  have hac := autoCloseMotors_m1 e s
  refine ⟨by rw [hpath], fun h => ?_, fun h => ?_, fun h h2 => ?_, fun h => ?_, ?_, ?_, ?_⟩
  · rw [hpath]
    exact hac.1 h hlim1
  · rw [hpath]
    exact hac.2.1 (Or.inl h)
  · rw [hpath]
    exact hac.2.2.1 h h2
  · rw [hpath]
    exact hac.2.2.2.1 h
  · rw [hpath]
    show (autoCloseMotors e s).totalAutoCloses = s.totalAutoCloses + 1 ↔ _
    rw [hac.2.2.2.2.1]
    constructor
    · rintro (h | h)
      · exact Or.inl h.1
      · exact Or.inr h
    · rintro (h | h)
      · exact Or.inl ⟨h, hlim1⟩
      · exact Or.inr h
  · intro e2 s2 hl2 hf2 hdome2
    simp only [checkRemoteConnectionAndAutoClose]
    by_cases hm2 : s2.networkMonitoringEnabled = false
    · rw [if_pos hm2]
    · rw [if_neg hm2, if_pos hdome2, if_pos hl2, if_neg (by simp [hf2])]
  · intro e2 s2 hres
    by_cases hm2 : s2.networkMonitoringEnabled = false
    · simp only [checkRemoteConnectionAndAutoClose, if_pos hm2] at hres
      exact Or.inl hres
    · simp only [checkRemoteConnectionAndAutoClose, if_neg hm2] at hres
      by_cases hd2 : (e2.lim1open = false ∨ e2.lim2open = false) ∨
          (s2.m1.dir = CLOSE ∨ s2.m2.dir = CLOSE)
      · rw [if_pos hd2] at hres
        by_cases hoff2 : e2.link = LinkSt.off
        · rw [if_pos hoff2] at hres
          by_cases hfl2 : s2.cableRemovalTriggered = false
          · exact Or.inl hfl2
          · rw [if_neg hfl2] at hres
            exact Or.inl hres
        · rw [if_neg hoff2] at hres
          rw [cableTrig_linkUpPath e2 s2] at hres
          exact cableBackReset_flag e2 s2 hres
      · rw [if_neg hd2] at hres
        exact Or.inl hres

/-- Witness for C3 (amended): cable removed with motor 1 idle mid-travel and
motor 2 at its closed limit; motor 1 is commanded to close, motor 2 is
untouched, the counter increments once and the flag is set; the second
check with the cable still out is a no-op. -/
theorem C3_amended_witness :
    (checkRemoteConnectionAndAutoClose eC3 s0).m1 =
      { s0.m1 with dir := OPEN, timer := MAX_MOT1_OPEN, autoClosedByIP := true, stopReason := 3 } ∧
    (checkRemoteConnectionAndAutoClose eC3 s0).m2 = s0.m2 ∧
    checkRemoteConnectionAndAutoClose eC3 { s0 with cableRemovalTriggered := true } =
      { s0 with cableRemovalTriggered := true } := by
  have h := C3_amended_cable_removal eC3 s0 (by decide) (by decide) (by decide) (by decide)
  refine ⟨h.2.1 (by decide), h.2.2.2.2.1 (Or.inr (by decide)), ?_⟩
  exact h.2.2.2.2.2.2.1 eC3 { s0 with cableRemovalTriggered := true }
    (by decide) (by decide) (Or.inl (Or.inl (by decide)))

/-- Claim C5 (code bug): a supervisory step that takes the cable-removal
auto-close action at t = 100000 ms, only 40 seconds after the last durable
write at t = 60000 ms, increments the in-memory totalAutoCloses to 1 but
leaves the persisted copy at 0, because saveCountersToEEPROM applies its
5-minute rate limit even to this safety-critical write - contradicting the
source comment on the call site (Immediate save - this is a critical
event) and the specified forced immediate write. -/
theorem C5_autoclose_write_skipped :
    (checkRemoteConnectionAndAutoClose e5 s5).totalAutoCloses = 1 ∧
    (checkRemoteConnectionAndAutoClose e5 s5).eeAutoCloses = 0 ∧
    (checkRemoteConnectionAndAutoClose e5 s5).eepromDirty = true := by decide

/-- The monitor on the probing path: with monitoring enabled, the dome not
fully closed, the link on, the Ethernet stack healthy, no recovery pending
and the probe interval elapsed, one call reduces to the probe outcome
handling followed by the windowed trigger. -/
theorem checkRemote_probe_path (e : NetEnv) (s : Sys)
    (hm : s.networkMonitoringEnabled = true) (hlink : e.link = LinkSt.on)
    (hlim1 : e.lim1open = false) (heth : s.ethInit = true) (hwld : s.wasLinkDown = false)
    (hipz : e.localIpZero = false) (hcr : s.cableRemovalTriggered = false)
    (hdue : 60000 ≤ e.now - s.lastConnectAttempt) :
    checkRemoteConnectionAndAutoClose e s =
      autoCloseTrigger e
        { (if e.probeOk = true then probeSuccess s else probeFailure e.now s) with
          lastConnectAttempt := e.now } := by
  have hnr : ¬needsRecovery e := by simp [needsRecovery, hipz]
  have h1 : cableBackReset e s = s := by
    unfold cableBackReset
    rw [if_neg]
    simp [hcr]
  have h2 : ethAutoRecovery e s = s := by
    unfold ethAutoRecovery
    rw [if_neg (by simp [hwld]), if_neg (by simp [heth])]
  have h3 : ipRecovery e s = s := by
    unfold ipRecovery
    rw [if_neg]
    simp [hnr]
  have hok : connectionOK e (!s.ethInit) s.ethInit = e.probeOk := by
    unfold connectionOK
    rw [if_neg (by simp [heth, hnr]), if_pos ⟨hnr, heth⟩]
  have h4 : probeAttempt e (!s.ethInit) s =
      { (if e.probeOk = true then probeSuccess s else probeFailure e.now s) with
        lastConnectAttempt := e.now } := by
    unfold probeAttempt
    rw [if_pos hdue, hok]
  simp only [checkRemoteConnectionAndAutoClose]
  rw [if_neg (by simp [hm]), if_pos (Or.inl (Or.inl hlim1)), if_neg (by simp [hlink])]
  unfold linkUpProbe
  rw [h1, h2, h3, h4]

/-- Case analysis of the windowed trigger. -/
theorem autoCloseTrigger_cases (e : NetEnv) (x : Sys) :
    (x.connectFailCount < 5 → autoCloseTrigger e x = x) ∧
    (5 ≤ x.connectFailCount → e.now - x.firstFailTimestamp ≤ 300000 →
      autoCloseTrigger e x =
        { autoCloseMotors e x with connectFailCount := 0, firstFailTimestamp := 0 }) ∧
    (300000 < e.now - x.firstFailTimestamp → autoCloseTrigger e x = x) := by
  refine ⟨fun h => ?_, fun h1 h2 => ?_, fun h => ?_⟩
  · unfold autoCloseTrigger
    rw [if_neg]
    rintro ⟨h5, h6⟩
    omega
  · unfold autoCloseTrigger
    rw [if_pos ⟨h1, h2⟩]
  · unfold autoCloseTrigger
    rw [if_neg]
    rintro ⟨h5, h6⟩
    omega

/-- Probe success handling: counters reset and exactly the monitor-owned
closing channels are returned to idle. -/
theorem probeSuccess_fields (s : Sys) :
    (probeSuccess s).connectFailCount = 0 ∧ (probeSuccess s).firstFailTimestamp = 0 ∧
    (s.m1.autoClosedByIP = true ∧ s.m1.dir = OPEN →
      (probeSuccess s).m1 = { s.m1 with dir := 0, stopReason := 0, autoClosedByIP := false }) ∧
    (¬(s.m1.autoClosedByIP = true ∧ s.m1.dir = OPEN) → (probeSuccess s).m1 = s.m1) ∧
    (s.m2.autoClosedByIP = true ∧ s.m2.dir = OPEN →
      (probeSuccess s).m2 = { s.m2 with dir := 0, stopReason := 0, autoClosedByIP := false }) ∧
    (¬(s.m2.autoClosedByIP = true ∧ s.m2.dir = OPEN) → (probeSuccess s).m2 = s.m2) := by
  simp only [probeSuccess]
  split_ifs <;> simp_all

/-- Probe failure handling, by window case: both lifetime counters and the
fail counter behave as specified, and the motors are untouched. -/
theorem probeFailure_fields (now : Nat) (s : Sys) :
    (probeFailure now s).totalIpFailures = s.totalIpFailures + 1 ∧
    (probeFailure now s).totalAutoCloses = s.totalAutoCloses ∧
    (probeFailure now s).m1 = s.m1 ∧ (probeFailure now s).m2 = s.m2 ∧
    (s.firstFailTimestamp ≠ 0 → 300000 < now - s.firstFailTimestamp →
      (probeFailure now s).connectFailCount = 1 ∧
      (probeFailure now s).firstFailTimestamp = now) ∧
    (s.firstFailTimestamp = 0 →
      (probeFailure now s).connectFailCount = s.connectFailCount + 1 ∧
      (probeFailure now s).firstFailTimestamp = now) ∧
    (s.firstFailTimestamp ≠ 0 → now - s.firstFailTimestamp ≤ 300000 →
      (probeFailure now s).connectFailCount = s.connectFailCount + 1 ∧
      (probeFailure now s).firstFailTimestamp = s.firstFailTimestamp) := by
  simp only [probeFailure]
  split_ifs <;>
    first
    | (simp_all; done)
    | (simp_all; omega)
    | omega

/-- The windowed trigger preserves totalIpFailures. -/
theorem autoCloseTrigger_totalIp (e : NetEnv) (x : Sys) :
    (autoCloseTrigger e x).totalIpFailures = x.totalIpFailures := by
  unfold autoCloseTrigger
  split_ifs with h
  · show (autoCloseMotors e x).totalIpFailures = _
    exact (autoCloseMotors_m1 e x).2.2.2.2.2
  · rfl

/-- Claim C4: a successful probe resets consecutiveFailures and windowStart,
and rescinds a channel exactly when it is monitor-owned and still driving
toward closed; operator-issued actuation is never rescinded. -/
theorem C4_probe_success_rescinds (e : NetEnv) (s : Sys)
    (hm : s.networkMonitoringEnabled = true) (hlink : e.link = LinkSt.on)
    (hlim1 : e.lim1open = false) (heth : s.ethInit = true) (hwld : s.wasLinkDown = false)
    (hipz : e.localIpZero = false) (hcr : s.cableRemovalTriggered = false)
    (hdue : 60000 ≤ e.now - s.lastConnectAttempt) (hok : e.probeOk = true) :
    (checkRemoteConnectionAndAutoClose e s).connectFailCount = 0 ∧
    (checkRemoteConnectionAndAutoClose e s).firstFailTimestamp = 0 ∧
    (s.m1.autoClosedByIP = true ∧ s.m1.dir = OPEN →
      (checkRemoteConnectionAndAutoClose e s).m1 =
        { s.m1 with dir := 0, stopReason := 0, autoClosedByIP := false }) ∧
    (¬(s.m1.autoClosedByIP = true ∧ s.m1.dir = OPEN) →
      (checkRemoteConnectionAndAutoClose e s).m1 = s.m1) ∧
    (s.m2.autoClosedByIP = true ∧ s.m2.dir = OPEN →
      (checkRemoteConnectionAndAutoClose e s).m2 =
        { s.m2 with dir := 0, stopReason := 0, autoClosedByIP := false }) ∧
    (¬(s.m2.autoClosedByIP = true ∧ s.m2.dir = OPEN) →
      (checkRemoteConnectionAndAutoClose e s).m2 = s.m2) := by
  have hpath := checkRemote_probe_path e s hm hlink hlim1 heth hwld hipz hcr hdue
  have hred : (if e.probeOk = true then probeSuccess s else probeFailure e.now s)
      = probeSuccess s := by
    rw [if_pos hok]
  rw [hred] at hpath
  have hps := probeSuccess_fields s
  have hc0 : ({ probeSuccess s with lastConnectAttempt := e.now } : Sys).connectFailCount
      = 0 := hps.1
  have htr := (autoCloseTrigger_cases e
    { probeSuccess s with lastConnectAttempt := e.now }).1 (by rw [hc0]; omega)
  rw [htr] at hpath
  rw [hpath]
  exact ⟨hps.1, hps.2.1, hps.2.2.1, hps.2.2.2.1, hps.2.2.2.2.1, hps.2.2.2.2.2⟩

/-- Witness for C4 at concrete inputs: a successful probe with motor 1
monitor-owned closing and motor 2 under an operator close command; motor 1
is rescinded to idle, motor 2 continues. -/
theorem C4_witness :
    (checkRemoteConnectionAndAutoClose
        { now := 120000, link := LinkSt.on, localIpZero := false, probeOk := true,
          setupOk := true, lim1open := false, lim2open := false }
        { s0 with m1 := { motor0 with dir := 1, timer := 99, stopReason := 3, autoClosedByIP := true },
                  m2 := { motor0 with dir := 1, timer := 42 }, connectFailCount := 3,
                  firstFailTimestamp := 60000 }).m1 =
      { dir := 0, speed := 0, timer := 99, stopReason := 0, autoClosedByIP := false } ∧
    (checkRemoteConnectionAndAutoClose
        { now := 120000, link := LinkSt.on, localIpZero := false, probeOk := true,
          setupOk := true, lim1open := false, lim2open := false }
        { s0 with m1 := { motor0 with dir := 1, timer := 99, stopReason := 3, autoClosedByIP := true },
                  m2 := { motor0 with dir := 1, timer := 42 }, connectFailCount := 3,
                  firstFailTimestamp := 60000 }).m2 =
      { dir := 1, speed := 0, timer := 42, stopReason := 0, autoClosedByIP := false } := by
  have h := C4_probe_success_rescinds
    { now := 120000, link := LinkSt.on, localIpZero := false, probeOk := true,
      setupOk := true, lim1open := false, lim2open := false }
    { s0 with m1 := { motor0 with dir := 1, timer := 99, stopReason := 3, autoClosedByIP := true },
              m2 := { motor0 with dir := 1, timer := 42 }, connectFailCount := 3,
              firstFailTimestamp := 60000 }
    (by decide) (by decide) (by decide) (by decide) (by decide) (by decide) (by decide)
    (by decide) (by decide)
  constructor
  · have := h.2.2.1 (by decide)
    simpa using this
  · have := h.2.2.2.2.2 (by decide)
    simpa using this

/-- Claim C2: windowed failure counting while the dome is not fully closed.
A failing probe increments consecutiveFailures and totalIpFailures and
sets windowStart if unset; if the window has expired the counter restarts
at 1 with a fresh window and nothing fires; otherwise the auto-close
trigger fires exactly when the counter reaches 5, commanding the open
motor closed and incrementing totalAutoCloses, after which both counters
are reset; the counter always stays below 5 after the call. -/
theorem C2_windowed_failure_counting (e : NetEnv) (s : Sys)
    (hm : s.networkMonitoringEnabled = true) (hlink : e.link = LinkSt.on)
    (hlim1 : e.lim1open = false) (heth : s.ethInit = true) (hwld : s.wasLinkDown = false)
    (hipz : e.localIpZero = false) (hcr : s.cableRemovalTriggered = false)
    (hdue : 60000 ≤ e.now - s.lastConnectAttempt) (hprobe : e.probeOk = false)
    (hcount : s.connectFailCount < 5) :
    (checkRemoteConnectionAndAutoClose e s).totalIpFailures = s.totalIpFailures + 1 ∧
    (s.firstFailTimestamp ≠ 0 → 300000 < e.now - s.firstFailTimestamp →
      (checkRemoteConnectionAndAutoClose e s).connectFailCount = 1 ∧
      (checkRemoteConnectionAndAutoClose e s).firstFailTimestamp = e.now ∧
      (checkRemoteConnectionAndAutoClose e s).totalAutoCloses = s.totalAutoCloses) ∧
    ((s.firstFailTimestamp = 0 ∨ e.now - s.firstFailTimestamp ≤ 300000) →
      s.connectFailCount + 1 ≠ 5 →
      (checkRemoteConnectionAndAutoClose e s).connectFailCount = s.connectFailCount + 1 ∧
      (checkRemoteConnectionAndAutoClose e s).firstFailTimestamp =
        (if s.firstFailTimestamp = 0 then e.now else s.firstFailTimestamp) ∧
      (checkRemoteConnectionAndAutoClose e s).totalAutoCloses = s.totalAutoCloses) ∧
    ((s.firstFailTimestamp = 0 ∨ e.now - s.firstFailTimestamp ≤ 300000) →
      s.connectFailCount + 1 = 5 →
      (checkRemoteConnectionAndAutoClose e s).connectFailCount = 0 ∧
      (checkRemoteConnectionAndAutoClose e s).firstFailTimestamp = 0 ∧
      (s.m1.dir ≠ OPEN →
        (checkRemoteConnectionAndAutoClose e s).m1.dir = OPEN ∧
        (checkRemoteConnectionAndAutoClose e s).m1.stopReason = 3 ∧
        (checkRemoteConnectionAndAutoClose e s).m1.autoClosedByIP = true ∧
        (checkRemoteConnectionAndAutoClose e s).totalAutoCloses = s.totalAutoCloses + 1)) ∧
    (checkRemoteConnectionAndAutoClose e s).connectFailCount < 5 := by
  have hpath := checkRemote_probe_path e s hm hlink hlim1 heth hwld hipz hcr hdue
  have hred : (if e.probeOk = true then probeSuccess s else probeFailure e.now s)
      = probeFailure e.now s := by
    rw [if_neg]
    simp [hprobe]
  rw [hred] at hpath
  have hpf := probeFailure_fields e.now s
  have hXip : ({ probeFailure e.now s with lastConnectAttempt := e.now } : Sys).totalIpFailures
      = s.totalIpFailures + 1 := hpf.1
  have hXta : ({ probeFailure e.now s with lastConnectAttempt := e.now } : Sys).totalAutoCloses
      = s.totalAutoCloses := hpf.2.1
  have hXm1 : ({ probeFailure e.now s with lastConnectAttempt := e.now } : Sys).m1
      = s.m1 := hpf.2.2.1
  have hfire : (s.firstFailTimestamp = 0 ∨ e.now - s.firstFailTimestamp ≤ 300000) →
      s.connectFailCount + 1 = 5 →
      checkRemoteConnectionAndAutoClose e s =
        { autoCloseMotors e { probeFailure e.now s with lastConnectAttempt := e.now } with
          connectFailCount := 0, firstFailTimestamp := 0 } := by
    intro hwin heq
    have hc : (probeFailure e.now s).connectFailCount = 5 := by
      by_cases hz : s.firstFailTimestamp = 0
      · rw [(hpf.2.2.2.2.2.1 hz).1, heq]
      · rcases hwin with hzz | hw
        · exact absurd hzz hz
        · rw [(hpf.2.2.2.2.2.2 hz hw).1, heq]
    have hwnd : e.now - ({ probeFailure e.now s with
        lastConnectAttempt := e.now } : Sys).firstFailTimestamp ≤ 300000 := by
      show e.now - (probeFailure e.now s).firstFailTimestamp ≤ 300000
      by_cases hz : s.firstFailTimestamp = 0
      · rw [(hpf.2.2.2.2.2.1 hz).2]
        omega
      · rcases hwin with hzz | hw
        · exact absurd hzz hz
        · rw [(hpf.2.2.2.2.2.2 hz hw).2]
          exact hw
    have htr := (autoCloseTrigger_cases e
        { probeFailure e.now s with lastConnectAttempt := e.now }).2.1
      (by show 5 ≤ (probeFailure e.now s).connectFailCount; rw [hc]) hwnd
    rw [hpath, htr]
  refine ⟨?_, fun hnz hexp => ?_, fun hwin hne => ?_, fun hwin heq => ?_, ?_⟩
  · rw [hpath, autoCloseTrigger_totalIp]
    exact hXip
  · have hc := hpf.2.2.2.2.1 hnz hexp
    have htr := (autoCloseTrigger_cases e
        { probeFailure e.now s with lastConnectAttempt := e.now }).1
      (by show (probeFailure e.now s).connectFailCount < 5; rw [hc.1]; omega)
    rw [hpath, htr]
    exact ⟨hc.1, hc.2, hXta⟩
  · have hc : (probeFailure e.now s).connectFailCount = s.connectFailCount + 1 := by
      by_cases hz : s.firstFailTimestamp = 0
      · exact (hpf.2.2.2.2.2.1 hz).1
      · rcases hwin with hzz | hw
        · exact absurd hzz hz
        · exact (hpf.2.2.2.2.2.2 hz hw).1
    have hf : (probeFailure e.now s).firstFailTimestamp =
        (if s.firstFailTimestamp = 0 then e.now else s.firstFailTimestamp) := by
      by_cases hz : s.firstFailTimestamp = 0
      · rw [if_pos hz]
        exact (hpf.2.2.2.2.2.1 hz).2
      · rw [if_neg hz]
        rcases hwin with hzz | hw
        · exact absurd hzz hz
        · exact (hpf.2.2.2.2.2.2 hz hw).2
    have htr := (autoCloseTrigger_cases e
        { probeFailure e.now s with lastConnectAttempt := e.now }).1
      (by show (probeFailure e.now s).connectFailCount < 5; rw [hc]; omega)
    rw [hpath, htr]
    exact ⟨hc, hf, hXta⟩
  · rw [hfire hwin heq]
    refine ⟨rfl, rfl, fun hdir => ?_⟩
    have hAC := autoCloseMotors_m1 e { probeFailure e.now s with lastConnectAttempt := e.now }
    have hm1eq := hAC.1 (by rw [hXm1]; exact hdir) hlim1
    rw [hXm1] at hm1eq
    refine ⟨?_, ?_, ?_, ?_⟩
    · show (autoCloseMotors e
        { probeFailure e.now s with lastConnectAttempt := e.now }).m1.dir = OPEN
      rw [hm1eq]
    · show (autoCloseMotors e
        { probeFailure e.now s with lastConnectAttempt := e.now }).m1.stopReason = 3
      rw [hm1eq]
    · show (autoCloseMotors e
        { probeFailure e.now s with lastConnectAttempt := e.now }).m1.autoClosedByIP = true
      rw [hm1eq]
    · show (autoCloseMotors e
        { probeFailure e.now s with lastConnectAttempt := e.now }).totalAutoCloses
        = s.totalAutoCloses + 1
      rw [(hAC.2.2.2.2.1).mpr (Or.inl ⟨by rw [hXm1]; exact hdir, hlim1⟩), hXta]
  · by_cases hz : s.firstFailTimestamp = 0
    · by_cases h5 : s.connectFailCount + 1 = 5
      · rw [hfire (Or.inl hz) h5]
        show (0 : Nat) < 5
        omega
      · have hc := (hpf.2.2.2.2.2.1 hz).1
        have htr := (autoCloseTrigger_cases e
            { probeFailure e.now s with lastConnectAttempt := e.now }).1
          (by show (probeFailure e.now s).connectFailCount < 5; rw [hc]; omega)
        rw [hpath, htr]
        show (probeFailure e.now s).connectFailCount < 5
        rw [hc]
        omega
    · by_cases hw : 300000 < e.now - s.firstFailTimestamp
      · have hc := hpf.2.2.2.2.1 hz hw
        have htr := (autoCloseTrigger_cases e
            { probeFailure e.now s with lastConnectAttempt := e.now }).1
          (by show (probeFailure e.now s).connectFailCount < 5; rw [hc.1]; omega)
        rw [hpath, htr]
        show (probeFailure e.now s).connectFailCount < 5
        rw [hc.1]
        omega
      · have hwle : e.now - s.firstFailTimestamp ≤ 300000 := by omega
        by_cases h5 : s.connectFailCount + 1 = 5
        · rw [hfire (Or.inr hwle) h5]
          show (0 : Nat) < 5
          omega
        · have hc := (hpf.2.2.2.2.2.2 hz hwle).1
          have htr := (autoCloseTrigger_cases e
              { probeFailure e.now s with lastConnectAttempt := e.now }).1
            (by show (probeFailure e.now s).connectFailCount < 5; rw [hc]; omega)
          rw [hpath, htr]
          show (probeFailure e.now s).connectFailCount < 5
          rw [hc]
          omega

/-- Witness for C2 at concrete inputs: the fifth failing probe within the
window (4 prior failures, window started at t = 60000, probe at
t = 120000) fires the auto-close on the open motor 1 and resets both
counters. -/
theorem C2_witness :
    (checkRemoteConnectionAndAutoClose
        { now := 120000, link := LinkSt.on, localIpZero := false, probeOk := false,
          setupOk := true, lim1open := false, lim2open := false }
        { s0 with connectFailCount := 4, firstFailTimestamp := 60000 }).totalIpFailures = 1 ∧
    (checkRemoteConnectionAndAutoClose
        { now := 120000, link := LinkSt.on, localIpZero := false, probeOk := false,
          setupOk := true, lim1open := false, lim2open := false }
        { s0 with connectFailCount := 4, firstFailTimestamp := 60000 }).connectFailCount = 0 ∧
    (checkRemoteConnectionAndAutoClose
        { now := 120000, link := LinkSt.on, localIpZero := false, probeOk := false,
          setupOk := true, lim1open := false, lim2open := false }
        { s0 with connectFailCount := 4, firstFailTimestamp := 60000 }).m1.dir = OPEN ∧
    (checkRemoteConnectionAndAutoClose
        { now := 120000, link := LinkSt.on, localIpZero := false, probeOk := false,
          setupOk := true, lim1open := false, lim2open := false }
        { s0 with connectFailCount := 4, firstFailTimestamp := 60000 }).totalAutoCloses = 1 := by
  have h := C2_windowed_failure_counting
    { now := 120000, link := LinkSt.on, localIpZero := false, probeOk := false,
      setupOk := true, lim1open := false, lim2open := false }
    { s0 with connectFailCount := 4, firstFailTimestamp := 60000 }
    (by decide) (by decide) (by decide) (by decide) (by decide) (by decide) (by decide)
    (by decide) (by decide) (by decide)
  have h4 := h.2.2.2.1 (Or.inr (by decide)) (by decide)
  have h5 := h4.2.2 (by decide)
  exact ⟨h.1, h4.1, h5.1, h5.2.2.2⟩

end DomeControl
